import Mathlib

/-!
# db_api.h: message framing, method bitmap and subscription bound

A shallow embedding of `air_magic_wand/air_mw_system/db/freeRTOS/inc/db_api.h`.
Constants and type declarations are transcribed from the header.  The header
only declares the `dbapi_*` functions; where a property needs the behaviour of
one of them, the function is modelled from the specification and the header's
own documentation comment, and its doc comment says so.
-/

namespace DbApi

/-! ## Build configuration -/

/-- The feature macros tested by `#ifdef` in `db_api.h`; `true` means defined. -/
structure BuildConfig where
  AIR_SUPPORT_IGMP_SNP_QUERIER : Bool
  AIR_SUPPORT_DHCP_SNOOP : Bool
  AIR_SUPPORT_SNMP : Bool
  AIR_SUPPORT_RSTP : Bool
  AIR_SUPPORT_MQTTD : Bool
  AIR_SUPPORT_LLDPD : Bool
  AIR_SUPPORT_POE : Bool
  AIR_SUPPORT_ICMP_CLIENT : Bool
  AIR_SUPPORT_SFP : Bool
  AIR_SUPPORT_VOICE_VLAN : Bool
  AIR_SUPPORT_IGMP_SNP_SEARCH_MAC_TABLE : Bool
deriving DecidableEq, Repr

/-- The build with no feature macro defined. -/
def BuildConfig.none : BuildConfig :=
  ⟨false, false, false, false, false, false, false, false, false, false, false⟩

/-- The build with every feature macro defined. -/
def BuildConfig.all : BuildConfig :=
  ⟨true, true, true, true, true, true, true, true, true, true, true⟩

/-! ## Naming constants (header lines 89-132) -/

/-- Modelled from the spec: the macro `BIT(n)` comes from `mw_utils.h`, which is
not part of the sources; it is the single bit `1 << n`. -/
def BIT (n : Nat) : Nat := 1 <<< n

def DB_ALL_FIELDS : Nat := 0
def DB_ALL_ENTRIES : Nat := 0
def DB_Q_NAME_SIZE : Nat := 4

def M_B_WRITE : Nat := BIT 0
def M_B_CREATE : Nat := BIT 1
def M_B_DELETE : Nat := BIT 2
def M_B_SUBSCRIBED : Nat := BIT 3
def M_B_GETFLASH : Nat := BIT 4
def M_B_RESPONSE : Nat := BIT 7

def M_GET : Nat := 0x00
def M_GETFLASH : Nat := M_B_GETFLASH
def M_UPDATE : Nat := M_B_WRITE
def M_CREATE : Nat := M_B_WRITE ||| M_B_CREATE
def M_DELETE : Nat := M_B_WRITE ||| M_B_DELETE
def M_SUBSCRIBE : Nat := M_B_SUBSCRIBED ||| M_B_CREATE
def M_UNSUBSCRIBE : Nat := M_B_SUBSCRIBED ||| M_B_DELETE
def M_RESPONSE : Nat := M_B_RESPONSE
def M_ACK : Nat := M_B_RESPONSE ||| M_B_SUBSCRIBED
def M_CLIENT_REQ : Nat := 0x1F

def DB_COUNT_REUSE_FLAG : Nat := BIT 7

/-- The macro `MAX_SUB_NUM`: 168 under `#ifdef AIR_SUPPORT_MQTTD`, 128 in the `#else` branch. -/
def MAX_SUB_NUM (cfg : BuildConfig) : Nat :=
  if cfg.AIR_SUPPORT_MQTTD then 168 else 128

def DB_MSG_PTR_SIZE : Nat := 4

/-! ## Packed structure layout (header lines 461-487) -/

/-- Modelled from the spec: the scalar typedefs come from `mw_types.h`, which is
not part of the sources.  `UI8_T` and `C8_T` are one byte, `UI16_T` is two bytes
(the header's format comment gives the same widths); a data pointer is as wide
as the target makes it. -/
inductive CType where
  | UI8_T
  | C8_T
  | UI16_T
  | pointer
deriving DecidableEq, Repr

/-- Size in bytes of a scalar type on a target whose data pointers are `p` bytes. -/
def CType.sizeof (p : Nat) : CType → Nat
  | .UI8_T => 1
  | .C8_T => 1
  | .UI16_T => 2
  | .pointer => p

/-- The member names of the three message structures. -/
inductive Member where
  | t_idx | f_idx | e_idx
  | request | data_size | ptr_data
  | cq_name | method | type | count | result | ptr_payload
deriving DecidableEq, Repr

/-- A member of a structure with its size in bytes. -/
structure Field where
  name : Member
  size : Nat
deriving DecidableEq, Repr

/-- Size of an `ATTRIBUTE_PACK` structure: members follow each other without padding. -/
def sizeofPacked (fs : List Field) : Nat :=
  (fs.map Field.size).sum

/-- Size of a union: the size of its largest member. -/
def sizeofUnion (fs : List Field) : Nat :=
  (fs.map Field.size).foldl max 0

/-- Offset of a member of an `ATTRIBUTE_PACK` structure: the sizes before it added up. -/
def offsetofPacked : List Field → Member → Option Nat
  | [], _ => none
  | f :: fs, m =>
    if f.name = m then some 0
    else (offsetofPacked fs m).map (fun o => f.size + o)

/-- Size of a member of a structure or union. -/
def memberSize (fs : List Field) (m : Member) : Option Nat :=
  (fs.find? (fun f => f.name = m)).map Field.size

/-- Members of `DB_REQUEST_TYPE_T`. -/
def DB_REQUEST_TYPE_T.fields (p : Nat) : List Field :=
  [⟨.t_idx, CType.sizeof p .UI8_T⟩, ⟨.f_idx, CType.sizeof p .UI8_T⟩, ⟨.e_idx, CType.sizeof p .UI16_T⟩]

/-- Members of `DB_PAYLOAD_T`; `request` is the nested `DB_REQUEST_TYPE_T`. -/
def DB_PAYLOAD_T.fields (p : Nat) : List Field :=
  [⟨.request, sizeofPacked (DB_REQUEST_TYPE_T.fields p)⟩,
   ⟨.data_size, CType.sizeof p .UI16_T⟩,
   ⟨.ptr_data, CType.sizeof p .pointer⟩]

/-- Members of the anonymous union `DB_MSG_T.type`. -/
def DB_MSG_T.typeMembers (p : Nat) : List Field :=
  [⟨.count, CType.sizeof p .UI8_T⟩, ⟨.result, CType.sizeof p .UI8_T⟩]

/-- Members of `DB_MSG_T`; `cq_name` is an array of `DB_Q_NAME_SIZE` characters. -/
def DB_MSG_T.fields (p : Nat) : List Field :=
  [⟨.cq_name, DB_Q_NAME_SIZE * CType.sizeof p .C8_T⟩,
   ⟨.method, CType.sizeof p .UI8_T⟩,
   ⟨.type, sizeofUnion (DB_MSG_T.typeMembers p)⟩,
   ⟨.ptr_payload, CType.sizeof p .pointer⟩]

/-- Offset of a member of the nested `request` inside `DB_PAYLOAD_T`. -/
def DB_PAYLOAD_T.requestOffset (p : Nat) (m : Member) : Option Nat :=
  match offsetofPacked (DB_PAYLOAD_T.fields p) .request,
        offsetofPacked (DB_REQUEST_TYPE_T.fields p) m with
  | some a, some b => some (a + b)
  | _, _ => none

/-- Offset of a member of the union `type` inside `DB_MSG_T`: every member of a
union starts where the union starts. -/
def DB_MSG_T.typeOffset (p : Nat) (m : Member) : Option Nat :=
  if (DB_MSG_T.typeMembers p).any (fun f => f.name = m) then
    offsetofPacked (DB_MSG_T.fields p) .type
  else none

/-- The macro `DB_MSG_HEADER_SIZE`, which is `sizeof(DB_MSG_T) - DB_MSG_PTR_SIZE`. -/
def DB_MSG_HEADER_SIZE (p : Nat) : Nat :=
  sizeofPacked (DB_MSG_T.fields p) - DB_MSG_PTR_SIZE

/-- The macro `DB_MSG_PAYLOAD_SIZE`, which is `sizeof(DB_PAYLOAD_T) - DB_MSG_PTR_SIZE`. -/
def DB_MSG_PAYLOAD_SIZE (p : Nat) : Nat :=
  sizeofPacked (DB_PAYLOAD_T.fields p) - DB_MSG_PTR_SIZE

/-! ## Result codes -/

/-- Modelled from the spec: `MW_ERROR_NO_T` comes from `mw_error.h`, which is not
part of the sources.  These are the result names the header's `RETURN:` lists use. -/
inductive MW_ERROR_NO_T where
  | MW_E_OK
  | MW_E_BAD_PARAMETER
  | MW_E_NO_MEMORY
  | MW_E_TIMEOUT
  | MW_E_ENTRY_NOT_FOUND
  | MW_E_NOT_INITED
  | MW_E_OP_INCOMPLETE
  | MW_E_OTHERS
deriving DecidableEq, Repr

/-! ## Count byte -/

/-- Bitwise complement `~x` of C on a 32-bit operand, read as an unsigned value. -/
def bitNot32 (x : Nat) : Nat := (2 ^ 32 - 1) ^^^ (x % 2 ^ 32)

/-- Modelled from the spec: the effective count of a count byte `c`, the
expression `c & ~DB_COUNT_REUSE_FLAG` stored back in a `UI8_T`.  The code that
evaluates it is not part of the sources. -/
def effectiveCount (c : Nat) : Nat := (c &&& bitNot32 DB_COUNT_REUSE_FLAG) % 256

/-- Modelled from the spec: the count byte with the reuse flag set,
`c | DB_COUNT_REUSE_FLAG` stored in a `UI8_T`. -/
def setReuseFlag (c : Nat) : Nat := (c ||| DB_COUNT_REUSE_FLAG) % 256

/-- Modelled from the spec: the count byte with the reuse flag cleared,
`c & ~DB_COUNT_REUSE_FLAG` stored in a `UI8_T`. -/
def clearReuseFlag (c : Nat) : Nat := (c &&& bitNot32 DB_COUNT_REUSE_FLAG) % 256

/-! ## Message codec -/

/-- The pointer width of the target the framing is written for: the header's
format comment gives a message pointer 4 bytes, and `DB_MSG_PTR_SIZE` is 4. -/
def TARGET_POINTER_WIDTH : Nat := 4

/-- A value of `DB_REQUEST_TYPE_T`: the record address. -/
structure DB_REQUEST_TYPE_T where
  t_idx : Nat
  f_idx : Nat
  e_idx : Nat
deriving DecidableEq, Repr

/-- The two bytes of a `UI16_T` in memory; `bigEndian` is the target's byte order. -/
def storeUI16 (bigEndian : Bool) (v : Nat) : List Nat :=
  if bigEndian then [v % 65536 / 256, v % 256] else [v % 256, v % 65536 / 256]

/-- The `UI16_T` held by two bytes in memory. -/
def loadUI16 (bigEndian : Bool) (b0 b1 : Nat) : Nat :=
  if bigEndian then b0 * 256 + b1 else b0 + b1 * 256

/-- Modelled from the spec: `dbapi_setMsgPayload` is only declared in the header.
It fills one payload entry at `ptr_input`: table index (1 byte), field index
(1 byte), entry index (2 bytes), data size (2 bytes), then the raw data inline.
The data size is the length of `raw` (the C function takes no length; it sizes
the data from the table registry), and the layout does not depend on `method`.
Returns the bytes written and, as the C function does, the request's total size
as a `UI16_T`. -/
def dbapi_setMsgPayload (bigEndian : Bool) (method in_t_idx in_f_idx in_e_idx : Nat)
    (raw : List Nat) : List Nat × Nat :=
  let _ := method
  ([in_t_idx % 256, in_f_idx % 256] ++ storeUI16 bigEndian in_e_idx
      ++ storeUI16 bigEndian raw.length ++ raw,
   (DB_MSG_PAYLOAD_SIZE TARGET_POINTER_WIDTH + raw.length) % 65536)

/-- What one call of `dbapi_parseMsg` hands back: the request, the data size, the
data pointer and the cursor for the next call; both pointers are byte offsets
from the start of the message. -/
structure ParseOut where
  request : DB_REQUEST_TYPE_T
  data_size : Nat
  data : Nat
  next : Nat
deriving DecidableEq, Repr

/-- Modelled from the spec: `dbapi_parseMsg` is only declared in the header.
One call reads the payload entry at the cursor.  On the first parsing of a
message the incoming cursor is ignored and the entry at `ptr_payload` (offset
`DB_MSG_HEADER_SIZE`) is read; `first` says which case this is, which the C
function tells from state the declaration does not show.  A message holds one
or more requests, so `count = 0` is a bad parameter.  The C function is given
no buffer length; an entry that does not lie inside the message cannot be read
in this model, which answers `MW_E_OTHERS` there. -/
def dbapi_parseMsg (bigEndian : Bool) (msg : List Nat) (count : Nat) (first : Bool)
    (cursor : Nat) : Except MW_ERROR_NO_T ParseOut :=
  if count = 0 then .error .MW_E_BAD_PARAMETER
  else
    let at_ := if first then DB_MSG_HEADER_SIZE TARGET_POINTER_WIDTH else cursor
    match msg.drop at_ with
    | t :: f :: e0 :: e1 :: s0 :: s1 :: body =>
      let size := loadUI16 bigEndian s0 s1
      if size ≤ body.length then
        .ok { request := ⟨t, f, loadUI16 bigEndian e0 e1⟩
              data_size := size
              data := at_ + DB_MSG_PAYLOAD_SIZE TARGET_POINTER_WIDTH
              next := at_ + DB_MSG_PAYLOAD_SIZE TARGET_POINTER_WIDTH + size }
      else .error .MW_E_OTHERS
    | _ => .error .MW_E_OTHERS

/-- The bytes a parsed entry's data pointer designates. -/
def ParseOut.bytes (msg : List Nat) (out : ParseOut) : List Nat :=
  (msg.drop out.data).take out.data_size

/-! ## Subscription manager -/

/-- A subscription entry: the subscriber's endpoint name and a record address. -/
structure SubEntry where
  cq_name : List Nat
  request : DB_REQUEST_TYPE_T
deriving DecidableEq, Repr

/-- Outcome of a subscription request, in the specification's words. -/
inductive SubResult where
  | ok
  | capacityExceeded
  | notFound
deriving DecidableEq, Repr

/-- Modelled from the spec: the subscription manager is not part of the sources.
`subscribe(endpoint, address)` registers the pair; the registry maps an address
to a set of endpoints, so a pair already registered is not registered twice.
The bound `MAX_SUB_NUM` is enforced when the entry is inserted. -/
def subscribe (cfg : BuildConfig) (subs : List SubEntry) (e : SubEntry) :
    SubResult × List SubEntry :=
  if e ∈ subs then (.ok, subs)
  else if subs.length < MAX_SUB_NUM cfg then (.ok, subs ++ [e])
  else (.capacityExceeded, subs)

/-- Modelled from the spec: `unsubscribe(endpoint, address)` removes the pair, or
reports that it was not registered. -/
def unsubscribe (subs : List SubEntry) (e : SubEntry) : SubResult × List SubEntry :=
  if e ∈ subs then (.ok, subs.erase e) else (.notFound, subs)

/-- Registers the entries of one SUBSCRIBE request in order, stopping at the
first failure. -/
def subscribeEach (cfg : BuildConfig) : List SubEntry → List SubEntry → SubResult × List SubEntry
  | subs, [] => (.ok, subs)
  | subs, e :: es =>
    match subscribe cfg subs e with
    | (.ok, subs1) => subscribeEach cfg subs1 es
    | (err, _) => (err, subs)

/-- Removes the entries of one UNSUBSCRIBE request in order; the result is the
first failure met, if any. -/
def unsubscribeEach : List SubEntry → List SubEntry → SubResult × List SubEntry
  | subs, [] => (.ok, subs)
  | subs, e :: es =>
    match unsubscribe subs e with
    | (.ok, subs1) => unsubscribeEach subs1 es
    | (err, subs1) => (err, (unsubscribeEach subs1 es).2)

/-- Modelled from the spec: how the store engine serves one subscription
request (method byte, endpoint, addresses of the payload entries).  SUBSCRIBE
either registers every entry or, on failure, none of them (no partial
registration); UNSUBSCRIBE removes the entries; any other method leaves the
registry alone. -/
def subscriptionRequest (cfg : BuildConfig) (subs : List SubEntry) (method : Nat)
    (cq_name : List Nat) (reqs : List DB_REQUEST_TYPE_T) : SubResult × List SubEntry :=
  let entries := reqs.map (fun r => (⟨cq_name, r⟩ : SubEntry))
  if method = M_SUBSCRIBE then
    match subscribeEach cfg subs entries with
    | (.ok, subs1) => (.ok, subs1)
    | (err, _) => (err, subs)
  else if method = M_UNSUBSCRIBE then unsubscribeEach subs entries
  else (.ok, subs)

/-- The registry after a sequence of requests (method, endpoint, addresses). -/
def runSubscriptionRequests (cfg : BuildConfig) (subs : List SubEntry) :
    List (Nat × List Nat × List DB_REQUEST_TYPE_T) → List SubEntry
  | [] => subs
  | (method, cq_name, reqs) :: rest =>
    runSubscriptionRequests cfg (subscriptionRequest cfg subs method cq_name reqs).2 rest

/-- The registry reached from the empty one by `n` SUBSCRIBE requests of the
endpoint `dbq` for the entries `0 .. n - 1` of table 17, field 1. -/
def filledRegistry (cfg : BuildConfig) (n : Nat) : List SubEntry :=
  runSubscriptionRequests cfg []
    ((List.range n).map (fun i => (M_SUBSCRIBE, [100, 98, 113, 0], [⟨17, 1, i⟩])))

/-! ## Count validity -/

/-- A decoded request: endpoint name, method byte, declared count and the
payload entries present (address and data). -/
structure DbRequest where
  cq_name : List Nat
  method : Nat
  count : Nat
  payload : List (DB_REQUEST_TYPE_T × List Nat)
deriving DecidableEq, Repr

/-- The subscription methods, the only ones allowed more than one payload. -/
def isSubscriptionMethod (method : Nat) : Bool :=
  method == M_SUBSCRIBE || method == M_UNSUBSCRIBE

/-- Modelled from the spec: the engine's check of the count field is not part of
the sources.  The declared count must equal the number of payload entries
present, and only a subscription method may carry a count other than 1 (header
format comment, `count`); a wrong count is a bad parameter. -/
def checkCount (req : DbRequest) : MW_ERROR_NO_T :=
  if req.count ≠ req.payload.length then .MW_E_BAD_PARAMETER
  else if isSubscriptionMethod req.method then .MW_E_OK
  else if req.count = 1 then .MW_E_OK
  else .MW_E_BAD_PARAMETER

/-! ## Enumerations (header lines 176-459) -/

/-- An enumerator of a C `enum`: its name and its explicit initialiser, if any. -/
structure Enumerator where
  name : String
  init : Option Nat
deriving DecidableEq, Repr

/-- An enumerator written without an initialiser. -/
def Enumerator.plain (name : String) : Enumerator := ⟨name, none⟩

/-- An enumerator written `NAME = v`. -/
def Enumerator.eq (name : String) (v : Nat) : Enumerator := ⟨name, some v⟩

/-- The values C gives the enumerators of an `enum`: an initialiser sets the
value, an enumerator without one is one more than its predecessor; `next` is
the value an enumerator without initialiser gets at this point. -/
def enumValuesFrom : Nat → List Enumerator → List (String × Nat)
  | _, [] => []
  | next, e :: rest =>
    match e.init with
    | some v => (e.name, v) :: enumValuesFrom (v + 1) rest
    | none => (e.name, next) :: enumValuesFrom (next + 1) rest

/-- The values of an `enum`; the first enumerator is 0 unless initialised. -/
def enumValues (es : List Enumerator) : List (String × Nat) :=
  enumValuesFrom 0 es

/-- The enumerators under an `#ifdef`: present when the macro is defined. -/
def ifdef (macroDefined : Bool) (es : List Enumerator) : List Enumerator :=
  if macroDefined then es else []

/-- The enumerators of `TABLES_T` (header lines 178-252) in a build. -/
def TABLES_T (cfg : BuildConfig) : List Enumerator :=
  [.eq "SYS_INFO" 0, .plain "ACCOUNT_INFO", .plain "PORT_CFG_INFO", .plain "PORT_QOS",
   .plain "TRUNK_PORT", .plain "LOOP_PREVEN_INFO", .plain "IGMP_SNP_INFO"]
  ++ ifdef cfg.AIR_SUPPORT_IGMP_SNP_QUERIER [.plain "IGMP_SNP_QUERIER_INFO"]
  ++ [.plain "PORT_MIRROR_INFO", .plain "JUMBO_FRAME_INFO", .plain "VLAN_CFG_INFO",
      .plain "VLAN_ENTRY", .plain "VOICE_VLAN_INFO", .plain "SURVEI_VLAN_INFO",
      .plain "OUI_ENTRY", .plain "QOS_INFO", .plain "STATIC_MAC_ENTRY"]
  ++ ifdef cfg.AIR_SUPPORT_DHCP_SNOOP [.plain "DHCP_SNP_INFO", .plain "DHCP_SNP_PORT_INFO"]
  ++ ifdef cfg.AIR_SUPPORT_SNMP [.plain "SNMP_INFO"]
  ++ ifdef cfg.AIR_SUPPORT_RSTP [.plain "RSTP_INFO", .plain "RSTP_PORT_INFO"]
  ++ ifdef cfg.AIR_SUPPORT_MQTTD [.plain "MQTTD_CFG_INFO"]
  ++ ifdef cfg.AIR_SUPPORT_LLDPD [.plain "LLDP_INFO", .plain "LLDP_PORT_INFO"]
  ++ ifdef cfg.AIR_SUPPORT_POE [.plain "POE_CFG", .plain "POE_PORT_CFG"]
  ++ [.plain "SYS_OPER_INFO", .plain "PORT_OPER_INFO", .plain "PORT_DIAG",
      .plain "LOGON_INFO", .plain "L2_MC_ENTRY", .plain "SYSTEM", .plain "PORT_OPER_SETTING"]
  ++ ifdef cfg.AIR_SUPPORT_ICMP_CLIENT [.plain "ICMP_CLIENT_INFO"]
  ++ ifdef cfg.AIR_SUPPORT_SFP [.plain "SFP_MODULE_INFO"]
  ++ ifdef cfg.AIR_SUPPORT_VOICE_VLAN [.plain "VOICE_OPER_INFO"]
  ++ [.plain "MIB_CNT", .plain "DYNAMIC_MAC_ADDRESS_ENTRY_CFG",
      .plain "DYNAMIC_MAC_ADDRESS_ENTRY"]
  ++ ifdef cfg.AIR_SUPPORT_RSTP [.plain "RSTP_PORT_OPER_INFO"]
  ++ ifdef cfg.AIR_SUPPORT_LLDPD [.plain "LLDP_CLIENT_INFO"]
  ++ ifdef cfg.AIR_SUPPORT_POE [.plain "POE_STATUS", .plain "POE_PORT_STATUS"]
  ++ [.plain "TABLES_LAST"]

/-- The value of the last enumerator of an `enum` (its `..._LAST`). -/
def enumLast (es : List Enumerator) : Option Nat :=
  (enumValues es).getLast?.map Prod.snd

/-- The values of the enumerators of an `enum` before its `..._LAST`. -/
def enumNamedValues (es : List Enumerator) : List Nat :=
  (enumValues es).dropLast.map Prod.snd

def SYS_OPER_INFO_T : List Enumerator :=
  [.eq "SYS_OPER_MAC" 1, .plain "SYS_OPER_HW_VER", .plain "SYS_OPER_IP_ADDR",
   .plain "SYS_OPER_IP_MASK", .plain "SYS_OPER_IP_GW", .plain "SYS_OPER_IP_DNS",
   .plain "SYS_OPER_COMPANY_INFO_ENABLE", .plain "SYS_OPER_INFO_LAST"]

def PORT_OPER_INFO_T : List Enumerator :=
  [.eq "PORT_OPER_STATUS" 1, .plain "PORT_OPER_SPEED", .plain "PORT_OPER_DUPLEX",
   .plain "PORT_OPER_FLOW_CTRL", .plain "PORT_LOOP_STATE", .plain "PORT_OPER_ROUTER",
   .plain "PORT_MIB_COUNTER_CLEAR", .plain "PORT_OPER_MODE", .plain "PORT_OPER_INFO_LAST"]

def PORT_CABLE_DIAG_T : List Enumerator :=
  [.eq "PORT_CABLE_SET" 1, .plain "PORT_CABLE_LENGTH", .plain "PORT_CABLE_STATE",
   .plain "PORT_CABLE_IMPEDANCE", .plain "PORT_CABLE_PORT", .plain "PORT_CABLE_DIAG_LAST"]

def LOGON_INFO_T : List Enumerator :=
  [.eq "LOGON_FAIL_COUNT" 1, .plain "LOGON_INFO_LAST"]

/-- The enumeration `L2_MC_ENTRY_T`: its first enumerator is chosen by `#ifdef
AIR_SUPPORT_IGMP_SNP_SEARCH_MAC_TABLE` / `#else`. -/
def L2_MC_ENTRY_T (cfg : BuildConfig) : List Enumerator :=
  (if cfg.AIR_SUPPORT_IGMP_SNP_SEARCH_MAC_TABLE then [.eq "L2_MC_MAC_ADDR" 1]
   else [.eq "L2_MC_IP_ADDR" 1])
  ++ [.plain "L2_MC_VID", .plain "L2_MC_PORTBITMAP", .plain "L2_MC_UPDATE_FLAG",
      .plain "L2_MC_ENTRY_LAST"]

def SYSTEM_T : List Enumerator :=
  [.eq "SYS_SAVE_RUNNING" 1, .plain "SYS_RESET", .plain "SYS_RESET_FACTORY",
   .plain "SYSTEM_LAST"]

def PORT_OPER_SETTING_T : List Enumerator :=
  [.eq "PORT_LOOP_BLOCK" 1, .plain "PORT_OPER_SETTING_LAST"]

def ICMP_CLIENT_INFO_T : List Enumerator :=
  [.eq "ICMP_CLIENT_HOST_NAME" 1, .plain "PING_IP", .plain "NUM", .plain "STATUS",
   .plain "SEND_PACKETS", .plain "RECV_PACKETS", .plain "LOST_PACKETS", .plain "MIN_RTT",
   .plain "MAX_RTT", .plain "AVE_RTT", .plain "ICMP_CLIENT_INFO_LAST"]

def SFP_MODULE_INFO_T : List Enumerator :=
  [.eq "SFP_MODULE_PORTNUM" 1, .plain "DIAGNOSTIC_MONITORING_TYPE", .plain "TEMPERATURE",
   .plain "VOLTAGE", .plain "CURRENT", .plain "OUTPUT_POWER", .plain "INPUT_POWER",
   .plain "LOSS_OF_SIGNAL", .plain "SFP_MODULE_INFO_LAST"]

def VOICE_OPER_INFO_T : List Enumerator :=
  [.eq "VOICE_OPER_MEMBER_STATE" 1, .plain "VOICE_OPER_INFO_LAST"]

/-- The enumeration `MIB_CNT_T`: the unicast, multicast, broadcast and discard
counters are under `#ifdef AIR_SUPPORT_SNMP`. -/
def MIB_CNT_T (cfg : BuildConfig) : List Enumerator :=
  [.eq "MIB_CNT_RX_PACKETS" 1]
  ++ ifdef cfg.AIR_SUPPORT_SNMP
      [.plain "MIB_CNT_RX_UNICAST_PACKETS", .plain "MIB_CNT_RX_MULTICAST_PACKETS",
       .plain "MIB_CNT_RX_BROADCAST_PACKETS", .plain "MIB_CNT_RX_DISCARDS_PACKETS"]
  ++ [.plain "MIB_CNT_RX_OCTETS", .plain "MIB_CNT_RX_ERRORS", .plain "MIB_CNT_TX_PACKETS"]
  ++ ifdef cfg.AIR_SUPPORT_SNMP
      [.plain "MIB_CNT_TX_UNICAST_PACKETS", .plain "MIB_CNT_TX_MULTICAST_PACKETS",
       .plain "MIB_CNT_TX_BROADCAST_PACKETS", .plain "MIB_CNT_TX_DISCARDS_PACKETS"]
  ++ [.plain "MIB_CNT_TX_OCTETS", .plain "MIB_CNT_TX_ERRORS", .plain "MIB_CNT_LAST"]

def DYNAMIC_MAC_ADDRESS_ENTRY_CFG_T : List Enumerator :=
  [.eq "ACTION_RESULT" 1, .plain "DYNAMIC_ENTRY_COUNT",
   .plain "DYNAMIC_MAC_ADDRESS_ENTRY_CFG_LAST"]

def DYNAMIC_MAC_ADDRESS_ENTRY_T : List Enumerator :=
  [.eq "DYNAMIC_MAC_ADDRESS_ENTRY_ADDR" 1, .plain "DYNAMIC_MAC_ADDRESS_ENTRY_VID",
   .plain "DYNAMIC_MAC_ADDRESS_ENTRY_PORT", .plain "DYNAMIC_MAC_ADDRESS_ENTRY_AGE",
   .plain "DYNAMIC_MAC_ADDRESS_ENTRY_LAST"]

def RSTP_PORT_OPER_INFO_T : List Enumerator :=
  [.eq "RSTP_PORT_OPER_STATE" 1, .plain "RSTP_PORT_OPER_ROLE", .plain "RSTP_PORT_OPER_BLOCK",
   .plain "RSTP_PORT_OPER_INFO_LAST"]

def LLDP_CLIENT_INFO_T : List Enumerator :=
  [.eq "CHASSIS_ID" 1, .plain "PORT_ID", .plain "TTL", .plain "SYSTEM_NAME",
   .plain "MED_CAPABILITY", .plain "MED_NET_POLICY", .plain "MED_EXTEN_POWER",
   .plain "LLDP_CLIENT_INFO_LAST"]

def POE_STATUS_T : List Enumerator :=
  [.eq "SUPPLY_VOLTAGE" 1, .plain "TOTAL_CONSUMED_POWER", .plain "TOTAL_CONSUMED_CURRENT",
   .plain "POE_STATUS_LAST"]

def POE_PORT_STATUS_T : List Enumerator :=
  [.eq "PORT_POWER_STATUS" 1, .plain "PORT_PD_CLASS", .plain "PORT_CONSUMED_POWER",
   .plain "PORT_VOLTAGE", .plain "PORT_CURRENT", .plain "PORT_POWER_EVENT",
   .plain "POE_PORT_STATUS_LAST"]

/-- The field enumerations a build declares, in header order; an enumeration
inside `#ifdef` is declared only when its macro is defined. -/
def fieldEnumerations (cfg : BuildConfig) : List (List Enumerator) :=
  [SYS_OPER_INFO_T, PORT_OPER_INFO_T, PORT_CABLE_DIAG_T, LOGON_INFO_T, L2_MC_ENTRY_T cfg,
   SYSTEM_T, PORT_OPER_SETTING_T]
  ++ (if cfg.AIR_SUPPORT_ICMP_CLIENT then [ICMP_CLIENT_INFO_T] else [])
  ++ (if cfg.AIR_SUPPORT_SFP then [SFP_MODULE_INFO_T] else [])
  ++ (if cfg.AIR_SUPPORT_VOICE_VLAN then [VOICE_OPER_INFO_T] else [])
  ++ [MIB_CNT_T cfg, DYNAMIC_MAC_ADDRESS_ENTRY_CFG_T, DYNAMIC_MAC_ADDRESS_ENTRY_T]
  ++ (if cfg.AIR_SUPPORT_RSTP then [RSTP_PORT_OPER_INFO_T] else [])
  ++ (if cfg.AIR_SUPPORT_LLDPD then [LLDP_CLIENT_INFO_T] else [])
  ++ (if cfg.AIR_SUPPORT_POE then [POE_STATUS_T, POE_PORT_STATUS_T] else [])

/-! ## Method values as operations -/

/-- The nine method values the header defines, `M_GET` to `M_ACK`. -/
def definedMethods : List Nat :=
  [M_GET, M_GETFLASH, M_UPDATE, M_CREATE, M_DELETE, M_SUBSCRIBE, M_UNSUBSCRIBE,
   M_RESPONSE, M_ACK]

/-- The six method bit constants the header defines. -/
def methodBits : List Nat :=
  [M_B_WRITE, M_B_CREATE, M_B_DELETE, M_B_SUBSCRIBED, M_B_GETFLASH, M_B_RESPONSE]

/-- The closed set of operation variants of the specification's design notes. -/
inductive Operation where
  | Get | GetFlash | Update | Create | Delete | Subscribe | Unsubscribe
  | Response | SubscribeAck
deriving DecidableEq, Repr

/-- Every operation variant. -/
def Operation.all : List Operation :=
  [.Get, .GetFlash, .Update, .Create, .Delete, .Subscribe, .Unsubscribe, .Response,
   .SubscribeAck]

/-- The method byte of an operation variant: the header's value for it. -/
def Operation.toMethod : Operation → Nat
  | .Get => M_GET
  | .GetFlash => M_GETFLASH
  | .Update => M_UPDATE
  | .Create => M_CREATE
  | .Delete => M_DELETE
  | .Subscribe => M_SUBSCRIBE
  | .Unsubscribe => M_UNSUBSCRIBE
  | .Response => M_RESPONSE
  | .SubscribeAck => M_ACK

/-- Modelled from the spec: the decoder of the design notes, which the header does
not have.  It matches the method byte against the nine values in turn and
answers the first variant whose value it is. -/
def Operation.ofMethod (b : Nat) : Option Operation :=
  Operation.all.find? (fun v => v.toMethod == b)

/-! ## Table registry and store engine -/

/-- Modelled from the spec: `dbapi_dbisReady` is only declared in the header.
Its NOTES say the return value is `MW_E_OK` if the database is initialized and
`MW_E_NOT_INITED` otherwise; `inited` is that state. -/
def dbapi_dbisReady (inited : Bool) : MW_ERROR_NO_T :=
  if inited then .MW_E_OK else .MW_E_NOT_INITED

/-- Modelled from the spec: a field of the Table Registry, whose data is not part
of the sources: a named, fixed-size slot.  `name` holds the characters of the
name and `size` is the field byte size. -/
structure FieldInfo where
  name : List Nat
  size : Nat
deriving DecidableEq, Repr

/-- Modelled from the spec: a table of the Table Registry: its name, its field
list in field index order (the first field has index 1, index 0 being
`DB_ALL_FIELDS`) and its entry capacity. -/
structure TableInfo where
  name : List Nat
  fields : List FieldInfo
  entries : Nat
deriving DecidableEq, Repr

/-- Modelled from the spec: the Store Engine value of the design notes, as far as
the lookups and the not-ready rule need it.  `inited` is false in the state
`Uninitialized` and true once the engine is `Ready`; `tables` is the Table
Registry in table index order, the first table having index 0. -/
structure StoreEngine where
  inited : Bool
  tables : List TableInfo
deriving DecidableEq, Repr

/-- The position of the first of `names` that is `name`. -/
def nameIndex : List (List Nat) → List Nat → Option Nat
  | [], _ => none
  | n :: ns, name => if n = name then some 0 else (nameIndex ns name).map (fun i => i + 1)

/-- The table with index `t_idx`, if the registry has one. -/
def StoreEngine.table (db : StoreEngine) (t_idx : Nat) : Option TableInfo :=
  db.tables[t_idx]?

/-- The field with index `f_idx` of a table, if it has one; field indices start
at 1. -/
def TableInfo.field (t : TableInfo) (f_idx : Nat) : Option FieldInfo :=
  if f_idx = 0 then none else t.fields[f_idx - 1]?

/-- The field with index `f_idx` of the table with index `t_idx`, if the registry
has both. -/
def StoreEngine.field (db : StoreEngine) (t_idx f_idx : Nat) : Option FieldInfo :=
  (db.table t_idx).bind (fun t => t.field f_idx)

/-- Modelled from the spec: how a lookup of the Table Registry answers.  While
the engine is `Uninitialized` it fails with the not-ready condition.  A
malformed request is a bad parameter: the C lookups take pointers, and
`ptrs` says whether the pointer parameters of the call are all non-null.  An
unknown key (`found` is `none`) is the not-found condition; a known one gives
its value. -/
def registryLookup {α : Type} (db : StoreEngine) (ptrs : Bool) (found : Option α) :
    Except MW_ERROR_NO_T α :=
  if !db.inited then .error .MW_E_NOT_INITED
  else if !ptrs then .error .MW_E_BAD_PARAMETER
  else
    match found with
    | some v => .ok v
    | none => .error .MW_E_ENTRY_NOT_FOUND

/-- Modelled from the spec: `dbapi_getTableIdx` is only declared in the header.
The table index of the table named `table_name`, as the `UI8_T` the C function
stores. -/
def dbapi_getTableIdx (db : StoreEngine) (table_name : List Nat) (ptrs : Bool) :
    Except MW_ERROR_NO_T Nat :=
  registryLookup db ptrs
    ((nameIndex (db.tables.map (fun t => t.name)) table_name).map (fun i => i % 256))

/-- Modelled from the spec: `dbapi_getFieldIdx` is only declared in the header.
The field index of the field named `field_name` in the table `t_idx`, as a
`UI8_T`; the field at position `i` of the field list has index `i + 1`. -/
def dbapi_getFieldIdx (db : StoreEngine) (t_idx : Nat) (field_name : List Nat) (ptrs : Bool) :
    Except MW_ERROR_NO_T Nat :=
  registryLookup db ptrs
    ((db.table t_idx).bind (fun t =>
      (nameIndex (t.fields.map (fun f => f.name)) field_name).map (fun i => (i + 1) % 256)))

/-- The name string written to a buffer of `data_size` characters: it needs room
for the terminating zero as well, and a buffer too small for it is the
capacity failure `MW_E_NO_MEMORY`. -/
def copyName (data_size : Nat) (name : List Nat) : Except MW_ERROR_NO_T (List Nat) :=
  if name.length < data_size then .ok name else .error .MW_E_NO_MEMORY

/-- Modelled from the spec: `dbapi_getTableName` is only declared in the header.
The name of the table `t_idx`, for a buffer of `data_size` characters. -/
def dbapi_getTableName (db : StoreEngine) (t_idx data_size : Nat) (ptrs : Bool) :
    Except MW_ERROR_NO_T (List Nat) :=
  (registryLookup db ptrs (db.table t_idx)).bind (fun t => copyName data_size t.name)

/-- Modelled from the spec: `dbapi_getFieldName` is only declared in the header.
The name of the field `f_idx` of the table `t_idx`, for a buffer of `data_size`
characters. -/
def dbapi_getFieldName (db : StoreEngine) (t_idx f_idx data_size : Nat) (ptrs : Bool) :
    Except MW_ERROR_NO_T (List Nat) :=
  (registryLookup db ptrs (db.field t_idx f_idx)).bind (fun f => copyName data_size f.name)

/-- Modelled from the spec: `dbapi_getFieldsNum` is only declared in the header.
The total field count of the table `t_idx`, as a `UI8_T`. -/
def dbapi_getFieldsNum (db : StoreEngine) (t_idx : Nat) (ptrs : Bool) :
    Except MW_ERROR_NO_T Nat :=
  registryLookup db ptrs ((db.table t_idx).map (fun t => t.fields.length % 256))

/-- Modelled from the spec: `dbapi_getFieldSize` is only declared in the header.
The byte size of the field `f_idx` of the table `t_idx`, as a `UI8_T`. -/
def dbapi_getFieldSize (db : StoreEngine) (t_idx f_idx : Nat) (ptrs : Bool) :
    Except MW_ERROR_NO_T Nat :=
  registryLookup db ptrs ((db.field t_idx f_idx).map (fun f => f.size % 256))

/-- Modelled from the spec: `dbapi_getEntriesNum` is only declared in the header.
The entry capacity of the table `t_idx`, as a `UI16_T`. -/
def dbapi_getEntriesNum (db : StoreEngine) (t_idx : Nat) (ptrs : Bool) :
    Except MW_ERROR_NO_T Nat :=
  registryLookup db ptrs ((db.table t_idx).map (fun t => t.entries % 65536))

/-- Modelled from the spec: the not-ready rule of the Store Engine.  In
`Uninitialized` a store operation other than the readiness query fails with the
not-ready condition `MW_E_NOT_INITED`; once the engine is `Ready` the operation
is carried out, and `ready` is its result then. -/
def storeOperation {α : Type} (db : StoreEngine) (ready : Except MW_ERROR_NO_T α) :
    Except MW_ERROR_NO_T α :=
  if db.inited then ready else .error .MW_E_NOT_INITED

/-- Modelled from the spec: `dbapi_getDataSize` is only declared in the header.
`total_size` is what the size computation for `req` gives once the engine is
`Ready`; how the registry sizes a wildcard address is not part of the sources. -/
def dbapi_getDataSize (db : StoreEngine) (req : DB_REQUEST_TYPE_T)
    (total_size : DB_REQUEST_TYPE_T → Except MW_ERROR_NO_T Nat) : Except MW_ERROR_NO_T Nat :=
  storeOperation db (total_size req)

/-- Modelled from the spec: `dbapi_sendRequesttoDb` is only declared in the
header.  `sent` is what the queue transport, an external collaborator, answers
for sending the `size` bytes of `msg` to the engine's queue. -/
def dbapi_sendRequesttoDb (db : StoreEngine) (size : Nat) (msg : List Nat)
    (sent : Nat → List Nat → Except MW_ERROR_NO_T Unit) : Except MW_ERROR_NO_T Unit :=
  storeOperation db (sent size msg)

/-- Modelled from the spec: `dbapi_sendMsg` is only declared in the header.
`sent` is what the queue transport answers for sending `msg` within `timeout`. -/
def dbapi_sendMsg (db : StoreEngine) (msg : List Nat) (timeout : Nat)
    (sent : List Nat → Nat → Except MW_ERROR_NO_T Unit) : Except MW_ERROR_NO_T Unit :=
  storeOperation db (sent msg timeout)

/-- Modelled from the spec: `dbapi_recvMsg` is only declared in the header.
`received` is what the queue transport answers for a receive on the queue
`client_qname` within `timeout`: a message or a failure. -/
def dbapi_recvMsg (db : StoreEngine) (client_qname : List Nat) (timeout : Nat)
    (received : List Nat → Nat → Except MW_ERROR_NO_T (List Nat)) :
    Except MW_ERROR_NO_T (List Nat) :=
  storeOperation db (received client_qname timeout)

/-- Modelled from the spec: `dbapi_getData` is only declared in the header.
`exchanged` is what sending the request `msg` and waiting on the queue
`client_qname` for the response gives: the response or a failure. -/
def dbapi_getData (db : StoreEngine) (client_qname msg : List Nat) (timeout : Nat)
    (exchanged : List Nat → List Nat → Nat → Except MW_ERROR_NO_T (List Nat)) :
    Except MW_ERROR_NO_T (List Nat) :=
  storeOperation db (exchanged client_qname msg timeout)

/-- Modelled from the spec: `dbapi_setData` is only declared in the header.
`exchanged` is what sending the request `msg` and waiting on the queue
`client_qname` for the response gives. -/
def dbapi_setData (db : StoreEngine) (client_qname msg : List Nat) (timeout : Nat)
    (exchanged : List Nat → List Nat → Nat → Except MW_ERROR_NO_T Unit) :
    Except MW_ERROR_NO_T Unit :=
  storeOperation db (exchanged client_qname msg timeout)

/-- Modelled from the spec: `dbapi_showCfgFile` is only declared in the header.
`shown` is what the persistence manager answers for showing the image chosen by
`showstartup`; the flash driver is an external collaborator. -/
def dbapi_showCfgFile (db : StoreEngine) (showstartup : Bool)
    (shown : Bool → Except MW_ERROR_NO_T Unit) : Except MW_ERROR_NO_T Unit :=
  storeOperation db (shown showstartup)

/-- Modelled from the spec: `dbapi_saveCfgFile` is only declared in the header.
`saved` is what the persistence manager answers for saving to the image chosen
by `savestartup`. -/
def dbapi_saveCfgFile (db : StoreEngine) (savestartup : Bool)
    (saved : Bool → Except MW_ERROR_NO_T Unit) : Except MW_ERROR_NO_T Unit :=
  storeOperation db (saved savestartup)

/-- Modelled from the spec: `dbapi_getCfgFile` is only declared in the header.
`image` is what the persistence manager answers for the stored image: its bytes
or a failure. -/
def dbapi_getCfgFile (db : StoreEngine) (image : Except MW_ERROR_NO_T (List Nat)) :
    Except MW_ERROR_NO_T (List Nat) :=
  storeOperation db image

/-- Modelled from the spec: `dbapi_clrCfgFile` is only declared in the header.
`cleared` is what the persistence manager answers for erasing the image chosen
by `clrstartup`. -/
def dbapi_clrCfgFile (db : StoreEngine) (clrstartup : Bool)
    (cleared : Bool → Except MW_ERROR_NO_T Unit) : Except MW_ERROR_NO_T Unit :=
  storeOperation db (cleared clrstartup)

/-- Modelled from the spec: `dbapi_dumpRaw` is only declared in the header.
`dumped` is what dumping the field `f_idx` of the table `t_idx` answers. -/
def dbapi_dumpRaw (db : StoreEngine) (t_idx f_idx : Nat)
    (dumped : Nat → Nat → Except MW_ERROR_NO_T Unit) : Except MW_ERROR_NO_T Unit :=
  storeOperation db (dumped t_idx f_idx)

/-! ## Payload lists -/

/-- The payload list of a message: each entry (address and data) written by
`dbapi_setMsgPayload` right after the one before. -/
def encodeEntries (bigEndian : Bool) (method : Nat) :
    List (DB_REQUEST_TYPE_T × List Nat) → List Nat
  | [] => []
  | (r, d) :: es =>
    (dbapi_setMsgPayload bigEndian method r.t_idx r.f_idx r.e_idx d).1
      ++ encodeEntries bigEndian method es

/-- Successive calls of `dbapi_parseMsg` on one message: `n` calls, the first as
given by `first` and `cursor`, each later one fed the cursor the call before it
returned; the results are listed in call order and a failing call ends the
sequence. -/
def parseMsgN (bigEndian : Bool) (msg : List Nat) (count : Nat) :
    Nat → Bool → Nat → List (Except MW_ERROR_NO_T ParseOut)
  | 0, _, _ => []
  | n + 1, first, cursor =>
    match dbapi_parseMsg bigEndian msg count first cursor with
    | .ok out => .ok out :: parseMsgN bigEndian msg count n false out.next
    | .error err => [.error err]

/-- What sequential decoding is to return for entries that start at offset
`start`: for each entry its address, its data size, a data pointer
`DB_MSG_PAYLOAD_SIZE` after the start of the entry and a cursor `data size`
further on, where the next entry starts. -/
def expectedOuts : Nat → List (DB_REQUEST_TYPE_T × List Nat) → List ParseOut
  | _, [] => []
  | start, (r, d) :: es =>
    { request := r
      data_size := d.length
      data := start + DB_MSG_PAYLOAD_SIZE TARGET_POINTER_WIDTH
      next := start + DB_MSG_PAYLOAD_SIZE TARGET_POINTER_WIDTH + d.length }
      :: expectedOuts (start + DB_MSG_PAYLOAD_SIZE TARGET_POINTER_WIDTH + d.length) es

/-- A record address whose members fit their fields (8, 8 and 16 bits) with data
whose size fits the 16-bit `data_size`. -/
def entryFits (e : DB_REQUEST_TYPE_T × List Nat) : Prop :=
  e.1.t_idx < 256 ∧ e.1.f_idx < 256 ∧ e.1.e_idx < 65536 ∧ e.2.length < 65536

instance (e : DB_REQUEST_TYPE_T × List Nat) : Decidable (entryFits e) := by
  unfold entryFits
  infer_instance

/-! ## Appending a request -/

/-- A buffer reallocated to `n` bytes: the old bytes are kept, new ones are zero. -/
def realloc (buf : List Nat) (n : Nat) : List Nat :=
  (buf ++ List.replicate (n - buf.length) 0).take n

/-- The buffer with `bytes` copied to offset `off`.  The buffer keeps its size:
bytes that would land past its end are not stored. -/
def writeAt (buf : List Nat) (off : Nat) (bytes : List Nat) : List Nat :=
  buf.take off ++ bytes.take (buf.length - off) ++ buf.drop (off + bytes.length)

/-- The end of the occupied region of a message: the offset reached from `off`
by reading `n` payload entries one after another, each as `dbapi_parseMsg` reads
the entry at a cursor; `none` if the message does not hold `n` entries there. -/
def occupiedEnd (bigEndian : Bool) (msg : List Nat) : Nat → Nat → Option Nat
  | 0, off => some off
  | n + 1, off =>
    match dbapi_parseMsg bigEndian msg 1 false off with
    | .ok out => occupiedEnd bigEndian msg n out.next
    | .error _ => none

/-- The number of requests set into a message before the position
`shifted_payload`: none at the start of the payload, where the first request
goes (the count member may hold a temporary value until then, see the NOTES of
`dbapi_createMsg`), and otherwise the effective count the header stores. -/
def requestsBefore (msg : List Nat) (shifted_payload : Nat) : Nat :=
  if shifted_payload = DB_MSG_HEADER_SIZE TARGET_POINTER_WIDTH then 0
  else effectiveCount (msg.getD 5 0)

/-- What `dbapi_appendMsgPayload` hands back on success: the message, which may
have been reallocated, its size, and the position for the next request as a
byte offset from the start of the message. -/
structure AppendOut where
  msg : List Nat
  msg_size : Nat
  shifted_payload : Nat
deriving DecidableEq, Repr

/-- Modelled from the spec: `dbapi_appendMsgPayload` is only declared in the
header.  The request is appended after the last request of the message payload:
the position `shifted_payload` has to be the end of the occupied region, where
the requests counted so far end, and any other position is a bad parameter, as
is a message too small for its header.  `msg_size` is the size of the DB
message, which here is the list `msg`: a `msg_size` other than its length
describes no message and is refused.  The effective count is the low 7 bits
of the count member, so a message holds at most 127 requests and one more is
refused.  The request is written as a payload entry (as `dbapi_setMsgPayload`
writes it, for the method in the header); if the message is not large enough
for it, the message is enlarged by reallocating, here to just the size needed.
The size is a `UI16_T`, so a message that would outgrow it is refused.  The
count member is updated to the number of requests set so far, its reuse flag
kept.  Returns the message, its size and the position for the next request. -/
def dbapi_appendMsgPayload (bigEndian : Bool) (request : DB_REQUEST_TYPE_T) (data : List Nat)
    (msg : List Nat) (msg_size : Nat) (shifted_payload : Nat) :
    Except MW_ERROR_NO_T AppendOut :=
  let n := requestsBefore msg shifted_payload
  let entry := (dbapi_setMsgPayload bigEndian (msg.getD 4 0) request.t_idx request.f_idx
    request.e_idx data).1
  let needed := shifted_payload + entry.length
  if msg_size ≠ msg.length then .error .MW_E_BAD_PARAMETER
  else if msg_size < DB_MSG_HEADER_SIZE TARGET_POINTER_WIDTH then .error .MW_E_BAD_PARAMETER
  else if occupiedEnd bigEndian msg n (DB_MSG_HEADER_SIZE TARGET_POINTER_WIDTH)
      ≠ some shifted_payload then .error .MW_E_BAD_PARAMETER
  else if DB_COUNT_REUSE_FLAG ≤ n + 1 then .error .MW_E_BAD_PARAMETER
  else if 65535 < needed then .error .MW_E_BAD_PARAMETER
  else
    let grown := if msg_size < needed then realloc msg needed else msg
    let size := if msg_size < needed then needed else msg_size
    let count := (msg.getD 5 0 &&& DB_COUNT_REUSE_FLAG) ||| (n + 1)
    .ok { msg := writeAt (writeAt grown 5 [count]) shifted_payload entry
          msg_size := size
          shifted_payload := needed }

/-- The record address as the members of `DB_REQUEST_TYPE_T` hold it: `t_idx`
and `f_idx` in a `UI8_T`, `e_idx` in a `UI16_T`. -/
def DB_REQUEST_TYPE_T.stored (r : DB_REQUEST_TYPE_T) : DB_REQUEST_TYPE_T :=
  ⟨r.t_idx % 256, r.f_idx % 256, r.e_idx % 65536⟩

/-! ## Persistent and volatile tables (header lines 180-250) -/

/-- The enumerators of `TABLES_T` before the header's comment `Below tables will
not keep in configuration file`: the tables kept in the configuration file. -/
def persistentTables (cfg : BuildConfig) : List Enumerator :=
  [.eq "SYS_INFO" 0, .plain "ACCOUNT_INFO", .plain "PORT_CFG_INFO", .plain "PORT_QOS",
   .plain "TRUNK_PORT", .plain "LOOP_PREVEN_INFO", .plain "IGMP_SNP_INFO"]
  ++ ifdef cfg.AIR_SUPPORT_IGMP_SNP_QUERIER [.plain "IGMP_SNP_QUERIER_INFO"]
  ++ [.plain "PORT_MIRROR_INFO", .plain "JUMBO_FRAME_INFO", .plain "VLAN_CFG_INFO",
      .plain "VLAN_ENTRY", .plain "VOICE_VLAN_INFO", .plain "SURVEI_VLAN_INFO",
      .plain "OUI_ENTRY", .plain "QOS_INFO", .plain "STATIC_MAC_ENTRY"]
  ++ ifdef cfg.AIR_SUPPORT_DHCP_SNOOP [.plain "DHCP_SNP_INFO", .plain "DHCP_SNP_PORT_INFO"]
  ++ ifdef cfg.AIR_SUPPORT_SNMP [.plain "SNMP_INFO"]
  ++ ifdef cfg.AIR_SUPPORT_RSTP [.plain "RSTP_INFO", .plain "RSTP_PORT_INFO"]
  ++ ifdef cfg.AIR_SUPPORT_MQTTD [.plain "MQTTD_CFG_INFO"]
  ++ ifdef cfg.AIR_SUPPORT_LLDPD [.plain "LLDP_INFO", .plain "LLDP_PORT_INFO"]
  ++ ifdef cfg.AIR_SUPPORT_POE [.plain "POE_CFG", .plain "POE_PORT_CFG"]

/-- The enumerators of `TABLES_T` from that comment up to `TABLES_LAST`: the
tables not kept in the configuration file. -/
def volatileTables (cfg : BuildConfig) : List Enumerator :=
  [.plain "SYS_OPER_INFO", .plain "PORT_OPER_INFO", .plain "PORT_DIAG",
   .plain "LOGON_INFO", .plain "L2_MC_ENTRY", .plain "SYSTEM", .plain "PORT_OPER_SETTING"]
  ++ ifdef cfg.AIR_SUPPORT_ICMP_CLIENT [.plain "ICMP_CLIENT_INFO"]
  ++ ifdef cfg.AIR_SUPPORT_SFP [.plain "SFP_MODULE_INFO"]
  ++ ifdef cfg.AIR_SUPPORT_VOICE_VLAN [.plain "VOICE_OPER_INFO"]
  ++ [.plain "MIB_CNT", .plain "DYNAMIC_MAC_ADDRESS_ENTRY_CFG",
      .plain "DYNAMIC_MAC_ADDRESS_ENTRY"]
  ++ ifdef cfg.AIR_SUPPORT_RSTP [.plain "RSTP_PORT_OPER_INFO"]
  ++ ifdef cfg.AIR_SUPPORT_LLDPD [.plain "LLDP_CLIENT_INFO"]
  ++ ifdef cfg.AIR_SUPPORT_POE [.plain "POE_STATUS", .plain "POE_PORT_STATUS"]

/-! ## Table structures (header lines 489-736) -/

/-- A member of a table structure as declared: its type, its name and, for an
array, the length written between the brackets (empty for a scalar). -/
structure MemberDecl where
  ctype : String
  name : String
  array : String
deriving DecidableEq, Repr

def DB_SYS_OPER_INFO_T : List MemberDecl :=
  [⟨"MW_MAC_T", "sys_mac", ""⟩, ⟨"UI8_T", "hw_version", "MAX_VERSION_SIZE"⟩,
   ⟨"MW_IPV4_T", "ip_addr", ""⟩, ⟨"MW_IPV4_T", "ip_mask", ""⟩, ⟨"MW_IPV4_T", "ip_gw", ""⟩,
   ⟨"MW_IPV4_T", "ip_dns", ""⟩, ⟨"UI8_T", "company_info_enable", ""⟩]

def DB_PORT_OPER_INFO_T : List MemberDecl :=
  [⟨"UI8_T", "oper_status", ""⟩, ⟨"UI8_T", "oper_speed", ""⟩, ⟨"UI8_T", "oper_duplex", ""⟩,
   ⟨"UI8_T", "oper_flow_ctrl", ""⟩, ⟨"UI8_T", "loop_state", ""⟩, ⟨"UI8_T", "oper_router", ""⟩,
   ⟨"UI8_T", "mib_counter_clear", ""⟩, ⟨"UI8_T", "oper_mode", ""⟩]

def DB_PORT_DIAG_T : List MemberDecl :=
  [⟨"UI8_T", "set", "MAX_PAIR_NUM"⟩, ⟨"UI16_T", "length", "MAX_PAIR_NUM"⟩,
   ⟨"UI8_T", "state", "MAX_PAIR_NUM"⟩, ⟨"UI16_T", "impedance", "MAX_PAIR_NUM"⟩,
   ⟨"UI8_T", "port", "MAX_PAIR_NUM"⟩]

def DB_LOGON_INFO_T : List MemberDecl :=
  [⟨"UI8_T", "logon_fail_count", ""⟩]

/-- The structure `DB_L2_MC_ENTRY_T`: its first member is chosen by `#ifdef
AIR_SUPPORT_IGMP_SNP_SEARCH_MAC_TABLE` / `#else`. -/
def DB_L2_MC_ENTRY_T (cfg : BuildConfig) : List MemberDecl :=
  (if cfg.AIR_SUPPORT_IGMP_SNP_SEARCH_MAC_TABLE then [⟨"MW_MAC_T", "mac_addr", "MAX_L2MC_NUM"⟩]
   else [⟨"MW_IPV4_T", "ip_addr", "MAX_L2MC_NUM"⟩])
  ++ [⟨"UI16_T", "vid", "MAX_L2MC_NUM"⟩, ⟨"UI32_T", "portbitmap", "MAX_L2MC_NUM"⟩,
      ⟨"UI8_T", "update_flag", "MAX_L2MC_NUM"⟩]

def DB_SYSTEM_T : List MemberDecl :=
  [⟨"UI8_T", "save_running", ""⟩, ⟨"UI8_T", "reset", ""⟩, ⟨"UI8_T", "reset_factory", ""⟩]

def DB_PORT_OPER_SETTING_T : List MemberDecl :=
  [⟨"UI8_T", "loop_block", "MAX_PORT_NUM"⟩]

def DB_ICMP_CLIENT_INFO_T : List MemberDecl :=
  [⟨"UI8_T", "host_name", "MAX_HOST_NAME_SIZE"⟩, ⟨"MW_IPV4_T", "ping_ip", ""⟩,
   ⟨"UI16_T", "num", ""⟩, ⟨"UI16_T", "status", ""⟩, ⟨"UI16_T", "send_packets", ""⟩,
   ⟨"UI16_T", "recv_packets", ""⟩, ⟨"UI16_T", "lost_packets", ""⟩, ⟨"UI16_T", "min_rtt", ""⟩,
   ⟨"UI16_T", "max_rtt", ""⟩, ⟨"UI16_T", "ave_rtt", ""⟩]

def DB_SFP_MODULE_INFO_T : List MemberDecl :=
  [⟨"UI8_T", "port_num", ""⟩, ⟨"UI8_T", "diagnostic_monitoring_type", ""⟩,
   ⟨"I16_T", "temperature", ""⟩, ⟨"UI16_T", "voltage", ""⟩, ⟨"UI16_T", "current", ""⟩,
   ⟨"UI16_T", "output_power", ""⟩, ⟨"UI16_T", "input_power", ""⟩,
   ⟨"UI8_T", "loss_of_signal", ""⟩]

def DB_VOICE_OPER_INFO_T : List MemberDecl :=
  [⟨"UI32_T", "member_state", ""⟩]

/-- The structure `DB_MIB_CNT_T`: the unicast, multicast, broadcast and discard
counters are under `#ifdef AIR_SUPPORT_SNMP`. -/
def DB_MIB_CNT_T (cfg : BuildConfig) : List MemberDecl :=
  [⟨"UI64_T", "rx_packets", ""⟩]
  ++ (if cfg.AIR_SUPPORT_SNMP then
        [⟨"UI64_T", "rx_unicast_pkts", ""⟩, ⟨"UI64_T", "rx_multicast_pkts", ""⟩,
         ⟨"UI64_T", "rx_broadcast_pkts", ""⟩, ⟨"UI64_T", "rx_discards_pkts", ""⟩]
      else [])
  ++ [⟨"UI64_T", "rx_octets", ""⟩, ⟨"UI64_T", "rx_errors", ""⟩, ⟨"UI64_T", "tx_packets", ""⟩]
  ++ (if cfg.AIR_SUPPORT_SNMP then
        [⟨"UI64_T", "tx_unicast_pkts", ""⟩, ⟨"UI64_T", "tx_multicast_pkts", ""⟩,
         ⟨"UI64_T", "tx_broadcast_pkts", ""⟩, ⟨"UI64_T", "tx_discards_pkts", ""⟩]
      else [])
  ++ [⟨"UI64_T", "tx_octets", ""⟩, ⟨"UI64_T", "tx_errors", ""⟩]

def DB_DYNAMIC_MAC_ADDRESS_ENTRY_CFG_T : List MemberDecl :=
  [⟨"UI8_T", "action_result", ""⟩, ⟨"UI8_T", "dynamic_entry_count", ""⟩]

def DB_DYNAMIC_MAC_ADDRESS_ENTRY_T : List MemberDecl :=
  [⟨"MW_MAC_T", "mac_addr", "MAX_DYNAMIC_MAC_ADDRESS_ENTRY_NUM"⟩,
   ⟨"UI16_T", "vid", "MAX_DYNAMIC_MAC_ADDRESS_ENTRY_NUM"⟩,
   ⟨"UI32_T", "port", "MAX_DYNAMIC_MAC_ADDRESS_ENTRY_NUM"⟩,
   ⟨"UI32_T", "age", "MAX_DYNAMIC_MAC_ADDRESS_ENTRY_NUM"⟩]

def DB_RSTP_PORT_OPER_T : List MemberDecl :=
  [⟨"UI8_T", "state", ""⟩, ⟨"UI8_T", "role", ""⟩, ⟨"UI8_T", "block", ""⟩]

def DB_LLDP_CLIENT_INFO_T : List MemberDecl :=
  [⟨"C8_T", "chassis_id", "MAX_LLDP_STR_SIZE"⟩, ⟨"C8_T", "port_id", "MAX_LLDP_STR_SIZE"⟩,
   ⟨"UI16_T", "time_to_live", ""⟩, ⟨"C8_T", "system_name", "MAX_LLDP_STR_SIZE"⟩,
   ⟨"MED_CAPABILITIES_T", "med_capabi", ""⟩,
   ⟨"NETWORK_POLICY_T", "med_network_policy", "MAX_NETWORK_POLICY_TLV_NUM"⟩,
   ⟨"EXTEN_POW_VIA_MDI_T", "med_exten_power", ""⟩]

def DB_POE_STATUS_T : List MemberDecl :=
  [⟨"UI16_T", "supply_voltage", ""⟩, ⟨"UI16_T", "total_consumed_power", ""⟩,
   ⟨"UI32_T", "total_consumed_current", ""⟩]

def DB_POE_PORT_STATUS_T : List MemberDecl :=
  [⟨"UI8_T", "port_power_status", ""⟩, ⟨"UI8_T", "port_pd_class", ""⟩,
   ⟨"UI16_T", "port_consumed_power", ""⟩, ⟨"UI16_T", "port_voltage", ""⟩,
   ⟨"UI16_T", "port_current", ""⟩, ⟨"UI8_T", "port_power_event", ""⟩]

/-- A volatile table with both declarations the header gives for it: the
enumeration of its fields and its structure. -/
structure TableSchema where
  table : String
  fields : List Enumerator
  members : List MemberDecl
deriving DecidableEq, Repr

/-- The volatile tables of a build whose field enumeration and structure are both
declared, in header order; a table inside `#ifdef` is there only when its macro
is defined. -/
def tableSchemas (cfg : BuildConfig) : List TableSchema :=
  [⟨"SYS_OPER_INFO", SYS_OPER_INFO_T, DB_SYS_OPER_INFO_T⟩,
   ⟨"PORT_OPER_INFO", PORT_OPER_INFO_T, DB_PORT_OPER_INFO_T⟩,
   ⟨"PORT_DIAG", PORT_CABLE_DIAG_T, DB_PORT_DIAG_T⟩,
   ⟨"LOGON_INFO", LOGON_INFO_T, DB_LOGON_INFO_T⟩,
   ⟨"L2_MC_ENTRY", L2_MC_ENTRY_T cfg, DB_L2_MC_ENTRY_T cfg⟩,
   ⟨"SYSTEM", SYSTEM_T, DB_SYSTEM_T⟩,
   ⟨"PORT_OPER_SETTING", PORT_OPER_SETTING_T, DB_PORT_OPER_SETTING_T⟩]
  ++ (if cfg.AIR_SUPPORT_ICMP_CLIENT then
        [⟨"ICMP_CLIENT_INFO", ICMP_CLIENT_INFO_T, DB_ICMP_CLIENT_INFO_T⟩] else [])
  ++ (if cfg.AIR_SUPPORT_SFP then
        [⟨"SFP_MODULE_INFO", SFP_MODULE_INFO_T, DB_SFP_MODULE_INFO_T⟩] else [])
  ++ (if cfg.AIR_SUPPORT_VOICE_VLAN then
        [⟨"VOICE_OPER_INFO", VOICE_OPER_INFO_T, DB_VOICE_OPER_INFO_T⟩] else [])
  ++ [⟨"MIB_CNT", MIB_CNT_T cfg, DB_MIB_CNT_T cfg⟩,
      ⟨"DYNAMIC_MAC_ADDRESS_ENTRY_CFG", DYNAMIC_MAC_ADDRESS_ENTRY_CFG_T,
        DB_DYNAMIC_MAC_ADDRESS_ENTRY_CFG_T⟩,
      ⟨"DYNAMIC_MAC_ADDRESS_ENTRY", DYNAMIC_MAC_ADDRESS_ENTRY_T,
        DB_DYNAMIC_MAC_ADDRESS_ENTRY_T⟩]
  ++ (if cfg.AIR_SUPPORT_RSTP then
        [⟨"RSTP_PORT_OPER_INFO", RSTP_PORT_OPER_INFO_T, DB_RSTP_PORT_OPER_T⟩] else [])
  ++ (if cfg.AIR_SUPPORT_LLDPD then
        [⟨"LLDP_CLIENT_INFO", LLDP_CLIENT_INFO_T, DB_LLDP_CLIENT_INFO_T⟩] else [])
  ++ (if cfg.AIR_SUPPORT_POE then
        [⟨"POE_STATUS", POE_STATUS_T, DB_POE_STATUS_T⟩,
         ⟨"POE_PORT_STATUS", POE_PORT_STATUS_T, DB_POE_PORT_STATUS_T⟩] else [])

/-- The fields of a table paired with its members in declaration order: the
enumerator's name, its index, and the name of the member at the same place. -/
def fieldPairs (T : TableSchema) : List (String × Nat × String) :=
  ((enumValues T.fields).dropLast.zip T.members).map
    (fun x => (x.1.1, x.1.2, x.2.name))

/-- The member a field index selects: index `k ≥ 1` is the k-th member in
declaration order, index 0 is the wildcard `DB_ALL_FIELDS` and selects none. -/
def memberOfField (T : TableSchema) (k : Nat) : Option MemberDecl :=
  if k = DB_ALL_FIELDS then none else T.members[k - 1]?

/-! ## The LLDP client record (header lines 164-170 and 650-717) -/

def MAX_LLDP_STR_SIZE : Nat := 64
def MAX_NETWORK_POLICY_TLV_NUM : Nat := 2
def LLDP_CLIENT_INFO_SIZE : Nat := 210

/-- Modelled from the spec: `UI32_T` comes from `mw_types.h`, which is not part of
the sources; it is four bytes. -/
def sizeof_UI32_T : Nat := 4

/-- The bit-fields of `NETWORK_POLICY_T.info` with their widths, in the order of
the `#ifdef __BIG_ENDIAN` branch or of the `#else` branch. -/
def NETWORK_POLICY_T.info (bigEndian : Bool) : List (String × Nat) :=
  if bigEndian then
    [("dscp", 6), ("l2_pri", 3), ("vlan_id", 12), ("reserved", 1), ("tagged_flag", 1),
     ("unknown_policy_flag", 1), ("app_type", 8)]
  else
    [("app_type", 8), ("unknown_policy_flag", 1), ("tagged_flag", 1), ("reserved", 1),
     ("vlan_id", 12), ("l2_pri", 3), ("dscp", 6)]

/-- The bit-fields of `EXTEN_POW_INFO_T.info` with their widths, in the order of
the `#ifdef __BIG_ENDIAN` branch or of the `#else` branch. -/
def EXTEN_POW_INFO_T.info (bigEndian : Bool) : List (String × Nat) :=
  if bigEndian then
    [("reserved", 8), ("power_pri", 4), ("power_source", 2), ("power_type", 2)]
  else
    [("power_type", 2), ("power_source", 2), ("power_pri", 4), ("reserved", 8)]

/-- The number of storage units a run of bit-fields takes: the fields fill a unit
of `unitBits` bits in declaration order and a field that does not fit what is
left of the unit starts the next one; `units` are the units already full and
`used` the bits taken in the current one. -/
def bitFieldUnits (unitBits : Nat) : Nat → Nat → List Nat → Nat
  | units, used, [] => if used = 0 then units else units + 1
  | units, used, w :: ws =>
    if used + w ≤ unitBits then bitFieldUnits unitBits units (used + w) ws
    else bitFieldUnits unitBits (units + 1) w ws

/-- Size in bytes of a structure made of bit-fields of one type of `unitBytes`
bytes. -/
def sizeofBitFields (unitBytes : Nat) (fields : List (String × Nat)) : Nat :=
  unitBytes * bitFieldUnits (8 * unitBytes) 0 0 (fields.map Prod.snd)

/-- Size of the union `NETWORK_POLICY_T`: the larger of `info` and `net_policy`. -/
def sizeof_NETWORK_POLICY_T (bigEndian : Bool) : Nat :=
  max (sizeofBitFields sizeof_UI32_T (NETWORK_POLICY_T.info bigEndian)) sizeof_UI32_T

/-- Size of the union `EXTEN_POW_INFO_T`: the larger of `info` and `p_info`. -/
def sizeof_EXTEN_POW_INFO_T (bigEndian : Bool) : Nat :=
  max (sizeofBitFields (CType.sizeof TARGET_POINTER_WIDTH .UI16_T)
    (EXTEN_POW_INFO_T.info bigEndian)) (CType.sizeof TARGET_POINTER_WIDTH .UI16_T)

/-- Size of the packed `MED_CAPABILITIES_T`: two `UI16_T`. -/
def sizeof_MED_CAPABILITIES_T : Nat :=
  CType.sizeof TARGET_POINTER_WIDTH .UI16_T + CType.sizeof TARGET_POINTER_WIDTH .UI16_T

/-- Size of the packed `EXTEN_POW_VIA_MDI_T`: `power_info` and a `UI16_T`. -/
def sizeof_EXTEN_POW_VIA_MDI_T (bigEndian : Bool) : Nat :=
  sizeof_EXTEN_POW_INFO_T bigEndian + CType.sizeof TARGET_POINTER_WIDTH .UI16_T

/-- The members of `DB_LLDP_CLIENT_INFO_T` with their sizes in bytes. -/
def DB_LLDP_CLIENT_INFO_T.sizes (bigEndian : Bool) : List (String × Nat) :=
  [("chassis_id", MAX_LLDP_STR_SIZE * CType.sizeof TARGET_POINTER_WIDTH .C8_T),
   ("port_id", MAX_LLDP_STR_SIZE * CType.sizeof TARGET_POINTER_WIDTH .C8_T),
   ("time_to_live", CType.sizeof TARGET_POINTER_WIDTH .UI16_T),
   ("system_name", MAX_LLDP_STR_SIZE * CType.sizeof TARGET_POINTER_WIDTH .C8_T),
   ("med_capabi", sizeof_MED_CAPABILITIES_T),
   ("med_network_policy", MAX_NETWORK_POLICY_TLV_NUM * sizeof_NETWORK_POLICY_T bigEndian),
   ("med_exten_power", sizeof_EXTEN_POW_VIA_MDI_T bigEndian)]

/-- Size of the packed `DB_LLDP_CLIENT_INFO_T`: its members without padding. -/
def sizeof_DB_LLDP_CLIENT_INFO_T (bigEndian : Bool) : Nat :=
  ((DB_LLDP_CLIENT_INFO_T.sizes bigEndian).map Prod.snd).sum

/-! ## Theorems -/

/-- A `UI16_T` stored as two bytes and loaded again is unchanged. -/
theorem storeUI16_loadUI16 (bigEndian : Bool) (v : Nat) (hv : v < 65536) :
    ∃ b0 b1, storeUI16 bigEndian v = [b0, b1] ∧ loadUI16 bigEndian b0 b1 = v := by
  cases bigEndian
  · exact ⟨v % 256, v % 65536 / 256, by simp [storeUI16], by simp [loadUI16]; omega⟩
  · exact ⟨v % 65536 / 256, v % 256, by simp [storeUI16], by simp [loadUI16]; omega⟩

/-- C1: for every record address (`t_idx` and `f_idx` 8 bit, `e_idx` 16 bit) and
every data buffer whose length fits 16 bits, the payload entry written by
`dbapi_setMsgPayload` after a message header, and read back by the first
`dbapi_parseMsg` of that message, gives the same address, the same data size
and the same data bytes, in either byte order and whatever follows the entry. -/
theorem payload_roundtrip (bigEndian : Bool) (method t f e count cursor : Nat)
    (raw hdr rest : List Nat)
    (ht : t < 256) (hf : f < 256) (he : e < 65536) (hraw : raw.length < 65536)
    (hhdr : hdr.length = DB_MSG_HEADER_SIZE TARGET_POINTER_WIDTH) (hcount : 0 < count) :
    ∃ out, dbapi_parseMsg bigEndian
        (hdr ++ (dbapi_setMsgPayload bigEndian method t f e raw).1 ++ rest) count true cursor
        = .ok out
      ∧ out.request = ⟨t, f, e⟩
      ∧ out.data_size = raw.length
      ∧ out.bytes (hdr ++ (dbapi_setMsgPayload bigEndian method t f e raw).1 ++ rest) = raw := by
  obtain ⟨e0, e1, hes, hel⟩ := storeUI16_loadUI16 bigEndian e he
  obtain ⟨s0, s1, hss, hsl⟩ := storeUI16_loadUI16 bigEndian raw.length hraw
  have hps : DB_MSG_PAYLOAD_SIZE TARGET_POINTER_WIDTH = 6 := rfl
  have hmsg : hdr ++ (dbapi_setMsgPayload bigEndian method t f e raw).1 ++ rest
      = hdr ++ (t :: f :: e0 :: e1 :: s0 :: s1 :: (raw ++ rest)) := by
    simp [dbapi_setMsgPayload, hes, hss, Nat.mod_eq_of_lt ht, Nat.mod_eq_of_lt hf]
  rw [hmsg]
  refine ⟨⟨⟨t, f, e⟩, raw.length, hdr.length + 6, hdr.length + 6 + raw.length⟩, ?_, rfl, rfl, ?_⟩
  · unfold dbapi_parseMsg
    rw [if_neg (by omega)]
    simp only [if_true, ← hhdr, List.drop_left, hsl, hel, hps]
    rw [if_pos (by simp)]
  · show List.take raw.length (List.drop (hdr.length + 6)
        (hdr ++ (t :: f :: e0 :: e1 :: s0 :: s1 :: (raw ++ rest)))) = raw
    rw [← List.drop_drop, List.drop_left]
    simp

/-- Witness for C1: the address (3, 2, 513) with data bytes 7, 8, 9, little endian. -/
theorem payload_roundtrip_witness :
    ∃ out, dbapi_parseMsg false
        ([100, 98, 113, 0, 1, 1] ++ (dbapi_setMsgPayload false 1 3 2 513 [7, 8, 9]).1 ++ []) 1 true 0
        = .ok out
      ∧ out.request = ⟨3, 2, 513⟩
      ∧ out.data_size = [7, 8, 9].length
      ∧ out.bytes ([100, 98, 113, 0, 1, 1] ++ (dbapi_setMsgPayload false 1 3 2 513 [7, 8, 9]).1 ++ [])
          = [7, 8, 9] :=
  payload_roundtrip false 1 3 2 513 1 0 [7, 8, 9] [100, 98, 113, 0, 1, 1] []
    (by decide) (by decide) (by decide) (by decide) (by decide) (by decide)

/-- C2: in the packed `DB_PAYLOAD_T`, `t_idx` is 1 byte at offset 0, `f_idx` 1 byte
at offset 1, `e_idx` 2 bytes at offset 2, `data_size` 2 bytes at offset 4 and
`ptr_data` (where the inline data starts) is at offset 6, whatever the pointer
width; with 4-byte pointers `sizeof(DB_PAYLOAD_T)` is 10 and `DB_MSG_PAYLOAD_SIZE`
is `10 - DB_MSG_PTR_SIZE = 6 = 1 + 1 + 2 + 2`. -/
theorem payload_layout (p : Nat) :
    memberSize (DB_REQUEST_TYPE_T.fields p) .t_idx = some 1
    ∧ DB_PAYLOAD_T.requestOffset p .t_idx = some 0
    ∧ memberSize (DB_REQUEST_TYPE_T.fields p) .f_idx = some 1
    ∧ DB_PAYLOAD_T.requestOffset p .f_idx = some 1
    ∧ memberSize (DB_REQUEST_TYPE_T.fields p) .e_idx = some 2
    ∧ DB_PAYLOAD_T.requestOffset p .e_idx = some 2
    ∧ memberSize (DB_PAYLOAD_T.fields p) .data_size = some 2
    ∧ offsetofPacked (DB_PAYLOAD_T.fields p) .data_size = some 4
    ∧ offsetofPacked (DB_PAYLOAD_T.fields p) .ptr_data = some 6
    ∧ sizeofPacked (DB_PAYLOAD_T.fields 4) = 10
    ∧ DB_MSG_PTR_SIZE = 4
    ∧ DB_MSG_PAYLOAD_SIZE 4 = sizeofPacked (DB_PAYLOAD_T.fields 4) - DB_MSG_PTR_SIZE
    ∧ DB_MSG_PAYLOAD_SIZE 4 = 6
    ∧ DB_MSG_PAYLOAD_SIZE 4 = 1 + 1 + 2 + 2 := by
  refine ⟨rfl, rfl, rfl, rfl, rfl, rfl, rfl, rfl, rfl, rfl, rfl, rfl, rfl, rfl⟩

/-- C3: in the packed `DB_MSG_T`, `cq_name` is `DB_Q_NAME_SIZE = 4` bytes at offset
0, `method` 1 byte at offset 4, the union `type` is a single byte at offset 5 with
`count` and `result` both on that byte, and `ptr_payload` is at offset 6, whatever
the pointer width; with 4-byte pointers `sizeof(DB_MSG_T)` is 10 and
`DB_MSG_HEADER_SIZE` is `10 - DB_MSG_PTR_SIZE = 6 = 4 + 1 + 1`. -/
theorem header_layout (p : Nat) :
    DB_Q_NAME_SIZE = 4
    ∧ memberSize (DB_MSG_T.fields p) .cq_name = some 4
    ∧ offsetofPacked (DB_MSG_T.fields p) .cq_name = some 0
    ∧ memberSize (DB_MSG_T.fields p) .method = some 1
    ∧ offsetofPacked (DB_MSG_T.fields p) .method = some 4
    ∧ memberSize (DB_MSG_T.fields p) .type = some 1
    ∧ offsetofPacked (DB_MSG_T.fields p) .type = some 5
    ∧ memberSize (DB_MSG_T.typeMembers p) .count = some 1
    ∧ memberSize (DB_MSG_T.typeMembers p) .result = some 1
    ∧ DB_MSG_T.typeOffset p .count = some 5
    ∧ DB_MSG_T.typeOffset p .result = some 5
    ∧ offsetofPacked (DB_MSG_T.fields p) .ptr_payload = some 6
    ∧ sizeofPacked (DB_MSG_T.fields 4) = 10
    ∧ DB_MSG_HEADER_SIZE 4 = sizeofPacked (DB_MSG_T.fields 4) - DB_MSG_PTR_SIZE
    ∧ DB_MSG_HEADER_SIZE 4 = 6
    ∧ DB_MSG_HEADER_SIZE 4 = 4 + 1 + 1 := by
  refine ⟨rfl, rfl, rfl, rfl, rfl, rfl, rfl, rfl, rfl, rfl, rfl, rfl, rfl, rfl, rfl, rfl⟩

/-- C4: the derived method values are `M_GET = 0x00`, `M_GETFLASH = 0x10`,
`M_UPDATE = 0x01`, `M_CREATE = 0x03`, `M_DELETE = 0x05`, `M_SUBSCRIBE = 0x0A`,
`M_UNSUBSCRIBE = 0x0C`, `M_RESPONSE = 0x80`, `M_ACK = 0x88`, and each is the OR
of the bits listed for it, with `BIT(n) = 1 << n`. -/
theorem method_values :
    (M_GET = 0x00 ∧ M_GETFLASH = 0x10 ∧ M_UPDATE = 0x01 ∧ M_CREATE = 0x03
      ∧ M_DELETE = 0x05 ∧ M_SUBSCRIBE = 0x0A ∧ M_UNSUBSCRIBE = 0x0C
      ∧ M_RESPONSE = 0x80 ∧ M_ACK = 0x88)
    ∧ (M_GETFLASH = 1 <<< 4 ∧ M_UPDATE = 1 <<< 0
      ∧ M_CREATE = 1 <<< 0 ||| 1 <<< 1 ∧ M_DELETE = 1 <<< 0 ||| 1 <<< 2
      ∧ M_SUBSCRIBE = 1 <<< 3 ||| 1 <<< 1 ∧ M_UNSUBSCRIBE = 1 <<< 3 ||| 1 <<< 2
      ∧ M_RESPONSE = 1 <<< 7 ∧ M_ACK = 1 <<< 7 ||| 1 <<< 3) := by
  decide

/-- C5: the method bit constants are the single bits `M_B_WRITE = 1 << 0`,
`M_B_CREATE = 1 << 1`, `M_B_DELETE = 1 << 2`, `M_B_SUBSCRIBED = 1 << 3`,
`M_B_GETFLASH = 1 << 4`, `M_B_RESPONSE = 1 << 7`; they are pairwise distinct,
no two share a bit, and each fits the 8-bit method field. -/
theorem method_bits :
    (M_B_WRITE = 1 <<< 0 ∧ M_B_CREATE = 1 <<< 1 ∧ M_B_DELETE = 1 <<< 2
      ∧ M_B_SUBSCRIBED = 1 <<< 3 ∧ M_B_GETFLASH = 1 <<< 4 ∧ M_B_RESPONSE = 1 <<< 7)
    ∧ List.Pairwise (fun a b => a ≠ b ∧ a &&& b = 0)
        [M_B_WRITE, M_B_CREATE, M_B_DELETE, M_B_SUBSCRIBED, M_B_GETFLASH, M_B_RESPONSE]
    ∧ (M_B_WRITE < 2 ^ 8 ∧ M_B_CREATE < 2 ^ 8 ∧ M_B_DELETE < 2 ^ 8
      ∧ M_B_SUBSCRIBED < 2 ^ 8 ∧ M_B_GETFLASH < 2 ^ 8 ∧ M_B_RESPONSE < 2 ^ 8) := by
  decide

/-- C6: `M_CLIENT_REQ = 0x1F` (the low 5 bits); each of the seven client methods
`m` satisfies `m & M_CLIENT_REQ = m`; `M_RESPONSE` and `M_ACK` do not; and for
every method byte `b` the masked value `b & M_CLIENT_REQ` has the response bit
clear. -/
theorem client_methods_low_bits (b : Nat) :
    M_CLIENT_REQ = 0x1F ∧ M_CLIENT_REQ = 2 ^ 5 - 1
    ∧ (M_GET &&& M_CLIENT_REQ = M_GET ∧ M_GETFLASH &&& M_CLIENT_REQ = M_GETFLASH
      ∧ M_UPDATE &&& M_CLIENT_REQ = M_UPDATE ∧ M_CREATE &&& M_CLIENT_REQ = M_CREATE
      ∧ M_DELETE &&& M_CLIENT_REQ = M_DELETE ∧ M_SUBSCRIBE &&& M_CLIENT_REQ = M_SUBSCRIBE
      ∧ M_UNSUBSCRIBE &&& M_CLIENT_REQ = M_UNSUBSCRIBE)
    ∧ (M_RESPONSE &&& M_CLIENT_REQ ≠ M_RESPONSE ∧ M_ACK &&& M_CLIENT_REQ ≠ M_ACK)
    ∧ (b &&& M_CLIENT_REQ) &&& M_B_RESPONSE = 0 := by
  refine ⟨by decide, by decide, by decide, by decide, ?_⟩
  rw [Nat.land_assoc]
  have h : M_CLIENT_REQ &&& M_B_RESPONSE = 0 := by decide
  rw [h, Nat.and_zero]

set_option maxRecDepth 100000 in
/-- C7: `DB_COUNT_REUSE_FLAG` is the top bit `0x80` of the count byte; for a count
byte `c` the effective count `c & ~DB_COUNT_REUSE_FLAG` is at most 127, every
value `n` in `0..127` is the effective count of some byte, and setting or
clearing the reuse flag leaves the effective count of `c` unchanged. -/
theorem count_reuse_flag (c n : Nat) (hc : c < 256) (hn : n ≤ 127) :
    DB_COUNT_REUSE_FLAG = 0x80
    ∧ effectiveCount c ≤ 127
    ∧ (∃ b, b < 256 ∧ effectiveCount b = n)
    ∧ effectiveCount (setReuseFlag c) = effectiveCount c
    ∧ effectiveCount (clearReuseFlag c) = effectiveCount c := by
  have hall : ∀ x, x < 256 → effectiveCount x ≤ 127
      ∧ effectiveCount (setReuseFlag x) = effectiveCount x
      ∧ effectiveCount (clearReuseFlag x) = effectiveCount x := by decide
  have hsurj : ∀ m, m < 128 → effectiveCount m = m := by decide
  obtain ⟨h1, h2, h3⟩ := hall c hc
  exact ⟨by decide, h1, ⟨n, by omega, hsurj n (by omega)⟩, h2, h3⟩

/-- Witness for C7 at the count byte `0x85` and the value 5. -/
theorem count_reuse_flag_witness :
    (0x85 < 256 ∧ 5 ≤ 127) ∧ effectiveCount 0x85 ≤ 127
      ∧ effectiveCount (setReuseFlag 0x85) = effectiveCount 0x85 :=
  ⟨⟨by decide, by decide⟩, (count_reuse_flag 0x85 5 (by decide) (by decide)).2.1,
    (count_reuse_flag 0x85 5 (by decide) (by decide)).2.2.2.1⟩

/-- C8: `MAX_SUB_NUM` is 168 exactly when `AIR_SUPPORT_MQTTD` is defined and 128
exactly when it is not; it takes no other value. -/
theorem max_sub_num_values (cfg : BuildConfig) :
    (MAX_SUB_NUM cfg = 168 ↔ cfg.AIR_SUPPORT_MQTTD = true)
    ∧ (MAX_SUB_NUM cfg = 128 ↔ cfg.AIR_SUPPORT_MQTTD = false)
    ∧ (MAX_SUB_NUM cfg = 168 ∨ MAX_SUB_NUM cfg = 128) := by
  unfold MAX_SUB_NUM
  cases cfg.AIR_SUPPORT_MQTTD <;> simp

/-- One `subscribe` keeps the registry within the bound. -/
theorem subscribe_length_le (cfg : BuildConfig) (subs : List SubEntry) (e : SubEntry)
    (h : subs.length ≤ MAX_SUB_NUM cfg) :
    (subscribe cfg subs e).2.length ≤ MAX_SUB_NUM cfg := by
  unfold subscribe
  split
  · exact h
  · split
    · simp only [List.length_append, List.length_singleton]
      omega
    · exact h

/-- A whole SUBSCRIBE request keeps the registry within the bound. -/
theorem subscribeEach_length_le (cfg : BuildConfig) (es subs : List SubEntry)
    (h : subs.length ≤ MAX_SUB_NUM cfg) :
    (subscribeEach cfg subs es).2.length ≤ MAX_SUB_NUM cfg := by
  induction es generalizing subs with
  | nil => exact h
  | cons e es ih =>
    unfold subscribeEach
    have hstep := subscribe_length_le cfg subs e h
    rcases hs : subscribe cfg subs e with ⟨r, subs1⟩
    rw [hs] at hstep
    cases r
    · exact ih subs1 hstep
    · exact h
    · exact h

/-- An UNSUBSCRIBE request never makes the registry longer. -/
theorem unsubscribeEach_length_le (es subs : List SubEntry) :
    (unsubscribeEach subs es).2.length ≤ subs.length := by
  induction es generalizing subs with
  | nil => exact Nat.le_refl _
  | cons e es ih =>
    unfold unsubscribeEach unsubscribe
    by_cases hmem : e ∈ subs
    · simp only [hmem, if_true]
      exact Nat.le_trans (ih (subs.erase e)) (List.length_erase_le e subs)
    · simp only [hmem, if_false]
      exact ih subs

/-- Serving one request keeps the registry within the bound. -/
theorem subscriptionRequest_length_le (cfg : BuildConfig) (subs : List SubEntry)
    (method : Nat) (cq_name : List Nat) (reqs : List DB_REQUEST_TYPE_T)
    (h : subs.length ≤ MAX_SUB_NUM cfg) :
    (subscriptionRequest cfg subs method cq_name reqs).2.length ≤ MAX_SUB_NUM cfg := by
  unfold subscriptionRequest
  simp only
  split
  · have hstep := subscribeEach_length_le cfg
      (reqs.map (fun r => (⟨cq_name, r⟩ : SubEntry))) subs h
    rcases hs : subscribeEach cfg subs (reqs.map (fun r => (⟨cq_name, r⟩ : SubEntry)))
      with ⟨r, subs1⟩
    rw [hs] at hstep
    cases r
    · exact hstep
    · exact h
    · exact h
  · split
    · exact Nat.le_trans (unsubscribeEach_length_le _ subs) h
    · exact h

/-- Any sequence of requests keeps the registry within the bound. -/
theorem runSubscriptionRequests_length_le (cfg : BuildConfig)
    (rs : List (Nat × List Nat × List DB_REQUEST_TYPE_T)) (subs : List SubEntry)
    (h : subs.length ≤ MAX_SUB_NUM cfg) :
    (runSubscriptionRequests cfg subs rs).length ≤ MAX_SUB_NUM cfg := by
  induction rs generalizing subs with
  | nil => exact h
  | cons r rs ih =>
    obtain ⟨method, cq_name, reqs⟩ := r
    unfold runSubscriptionRequests
    exact ih _ (subscriptionRequest_length_le cfg subs method cq_name reqs h)

/-- C9: starting from the empty registry, after any sequence of SUBSCRIBE and
UNSUBSCRIBE requests the number of registered entries is at most `MAX_SUB_NUM`;
and when exactly `MAX_SUB_NUM` entries are registered, a SUBSCRIBE of an entry
not yet registered fails with the capacity error and leaves the registry as it
was, so exactly `MAX_SUB_NUM` entries stay registered. -/
theorem subscription_capacity (cfg : BuildConfig)
    (rs : List (Nat × List Nat × List DB_REQUEST_TYPE_T))
    (subs : List SubEntry) (cq_name : List Nat) (r : DB_REQUEST_TYPE_T)
    (hfull : subs.length = MAX_SUB_NUM cfg) (hnew : (⟨cq_name, r⟩ : SubEntry) ∉ subs) :
    (runSubscriptionRequests cfg [] rs).length ≤ MAX_SUB_NUM cfg
    ∧ subscriptionRequest cfg subs M_SUBSCRIBE cq_name [r] = (.capacityExceeded, subs)
    ∧ (subscriptionRequest cfg subs M_SUBSCRIBE cq_name [r]).2.length = MAX_SUB_NUM cfg := by
  have hreq : subscriptionRequest cfg subs M_SUBSCRIBE cq_name [r]
      = (.capacityExceeded, subs) := by
    simp [subscriptionRequest, subscribeEach, subscribe, hnew, hfull]
  refine ⟨runSubscriptionRequests_length_le cfg rs [] (Nat.zero_le _), hreq, ?_⟩
  rw [hreq]
  exact hfull
set_option maxRecDepth 1000000 in
/-- Witness for C9: in the build without `AIR_SUPPORT_MQTTD`, after 128 distinct
subscriptions the registry is full and one more distinct SUBSCRIBE is refused. -/
theorem subscription_capacity_witness :
    (filledRegistry BuildConfig.none 128).length = MAX_SUB_NUM BuildConfig.none
    ∧ (⟨[100, 98, 113, 0], ⟨17, 1, 128⟩⟩ : SubEntry) ∉ filledRegistry BuildConfig.none 128
    ∧ subscriptionRequest BuildConfig.none (filledRegistry BuildConfig.none 128) M_SUBSCRIBE
        [100, 98, 113, 0] [⟨17, 1, 128⟩]
      = (.capacityExceeded, filledRegistry BuildConfig.none 128) :=
  ⟨by decide, by decide,
    (subscription_capacity BuildConfig.none [] (filledRegistry BuildConfig.none 128)
      [100, 98, 113, 0] ⟨17, 1, 128⟩ (by decide) (by decide)).2.1⟩
/-- C10: a request passes the count check only if its declared count equals the
number of payload entries present and, unless its method is `M_SUBSCRIBE` or
`M_UNSUBSCRIBE`, that count is exactly 1; a request of method `M_GET`,
`M_GETFLASH`, `M_UPDATE`, `M_CREATE` or `M_DELETE` whose count is not 1 is
rejected as a bad parameter. -/
theorem count_validity (req : DbRequest) :
    (checkCount req = .MW_E_OK →
      req.count = req.payload.length
      ∧ (req.method ≠ M_SUBSCRIBE → req.method ≠ M_UNSUBSCRIBE → req.count = 1))
    ∧ (req.method = M_GET ∨ req.method = M_GETFLASH ∨ req.method = M_UPDATE
        ∨ req.method = M_CREATE ∨ req.method = M_DELETE →
      req.count ≠ 1 → checkCount req = .MW_E_BAD_PARAMETER) := by
  constructor
  · intro hok
    unfold checkCount at hok
    by_cases hlen : req.count = req.payload.length
    · refine ⟨hlen, ?_⟩
      intro hs hu
      have hsub : isSubscriptionMethod req.method = false := by
        simp [isSubscriptionMethod, hs, hu]
      by_cases h1 : req.count = 1
      · exact h1
      · simp [hlen, hsub] at hok
        exact absurd (hlen ▸ hok) h1
    · simp [hlen] at hok
  · intro hm h1
    have hsub : isSubscriptionMethod req.method = false := by
      rcases hm with h | h | h | h | h <;> rw [h] <;> decide
    unfold checkCount
    by_cases hlen : req.count = req.payload.length
    · simp [hsub, h1, hlen ▸ h1]
    · simp [hlen]
/-- Witness for C10: an `M_UPDATE` request with one payload entry and count 1
passes the check, and an `M_GET` request declaring two entries is rejected. -/
theorem count_validity_witness :
    checkCount ⟨[100, 98, 113, 0], M_UPDATE, 1, [(⟨0, 1, 0⟩, [7])]⟩ = .MW_E_OK
    ∧ (1 : Nat) = [((⟨0, 1, 0⟩ : DB_REQUEST_TYPE_T), [7])].length
    ∧ checkCount ⟨[100, 98, 113, 0], M_GET, 2, [(⟨0, 1, 0⟩, []), (⟨0, 2, 0⟩, [])]⟩
        = .MW_E_BAD_PARAMETER :=
  ⟨by decide,
    ((count_validity ⟨[100, 98, 113, 0], M_UPDATE, 1, [(⟨0, 1, 0⟩, [7])]⟩).1 (by decide)).1,
    (count_validity ⟨[100, 98, 113, 0], M_GET, 2, [(⟨0, 1, 0⟩, []), (⟨0, 2, 0⟩, [])]⟩).2
      (Or.inl rfl) (by decide)⟩

/-- Enumerators without initialiser get consecutive values. -/
theorem enumValuesFrom_plain (es : List Enumerator) (n : Nat)
    (h : ∀ e ∈ es, e.init = none) :
    (enumValuesFrom n es).map Prod.snd = List.range' n es.length := by
  induction es generalizing n with
  | nil => rfl
  | cons e es ih =>
    have he : e.init = none := h e (List.mem_cons_self _ _)
    have hes : ∀ x ∈ es, x.init = none := fun x hx => h x (List.mem_cons_of_mem _ hx)
    simp only [enumValuesFrom, he, List.map_cons, List.length_cons, List.range'_succ, ih _ hes]

/-- After enumerators with consecutive values the next ones continue the count. -/
theorem enumValuesFrom_append (a b : List Enumerator) (n : Nat)
    (h : (enumValuesFrom n a).map Prod.snd = List.range' n a.length) :
    enumValuesFrom n (a ++ b) = enumValuesFrom n a ++ enumValuesFrom (n + a.length) b := by
  induction a generalizing n with
  | nil => rfl
  | cons e a ih =>
    cases hinit : e.init with
    | none =>
      simp only [enumValuesFrom, hinit, List.map_cons, List.length_cons, List.range'_succ,
        List.cons.injEq, true_and] at h
      simp only [List.cons_append, enumValuesFrom, hinit, List.length_cons]
      rw [show n + (a.length + 1) = n + 1 + a.length by omega]
      exact congrArg _ (ih _ h)
    | some v =>
      simp only [enumValuesFrom, hinit, List.map_cons, List.length_cons, List.range'_succ,
        List.cons.injEq] at h
      obtain ⟨hv, h⟩ := h
      subst hv
      simp only [List.cons_append, enumValuesFrom, hinit, List.length_cons]
      rw [show v + (a.length + 1) = v + 1 + a.length by omega]
      exact congrArg _ (ih _ h)

/-- Two runs of consecutive values, the second starting where the first ends, make
one run. -/
theorem consecutive_append (a b : List Enumerator) (n : Nat)
    (ha : (enumValuesFrom n a).map Prod.snd = List.range' n a.length)
    (hb : (enumValuesFrom (n + a.length) b).map Prod.snd = List.range' (n + a.length) b.length) :
    (enumValuesFrom n (a ++ b)).map Prod.snd = List.range' n (a ++ b).length := by
  rw [enumValuesFrom_append a b n ha, List.map_append, ha, hb, List.length_append]
  have := List.range'_append n a.length b.length 1
  simp [Nat.add_comm] at this ⊢

/-- A conditional group of enumerators without initialiser continues the count. -/
theorem consecutive_ifdef (c : Bool) (es : List Enumerator) (n : Nat)
    (h : ∀ e ∈ es, e.init = none) :
    (enumValuesFrom n (ifdef c es)).map Prod.snd = List.range' n (ifdef c es).length := by
  cases c
  · rfl
  · exact enumValuesFrom_plain es n h

/-- The length of a conditional group of enumerators. -/
theorem length_ifdef (c : Bool) (es : List Enumerator) :
    (ifdef c es).length = c.toNat * es.length := by
  cases c <;> simp [ifdef]

/-- When the values of an `enum` are `s, s + 1, .., s + n`, its last enumerator is
`s + n` and the ones before it are `s .. s + n - 1`. -/
theorem enum_of_consecutive (es : List Enumerator) (s n : Nat)
    (h : (enumValues es).map Prod.snd = List.range' s (n + 1)) :
    enumLast es = some (s + n) ∧ enumNamedValues es = List.range' s n := by
  constructor
  · unfold enumLast
    rw [← List.getLast?_map, h, List.range'_1_concat, List.getLast?_concat]
  · unfold enumNamedValues
    rw [List.map_dropLast, h, List.range'_1_concat, List.dropLast_concat]

/-- In every build the values of `TABLES_T` are consecutive from 0. -/
theorem TABLES_T_consecutive (cfg : BuildConfig) :
    (enumValues (TABLES_T cfg)).map Prod.snd = List.range' 0 (TABLES_T cfg).length := by
  unfold enumValues TABLES_T
  refine consecutive_append _ _ _ ?_ (enumValuesFrom_plain _ _ (by decide))
  refine consecutive_append _ _ _ ?_ (consecutive_ifdef _ _ _ (by decide))
  refine consecutive_append _ _ _ ?_ (consecutive_ifdef _ _ _ (by decide))
  refine consecutive_append _ _ _ ?_ (consecutive_ifdef _ _ _ (by decide))
  refine consecutive_append _ _ _ ?_ (enumValuesFrom_plain _ _ (by decide))
  refine consecutive_append _ _ _ ?_ (consecutive_ifdef _ _ _ (by decide))
  refine consecutive_append _ _ _ ?_ (consecutive_ifdef _ _ _ (by decide))
  refine consecutive_append _ _ _ ?_ (consecutive_ifdef _ _ _ (by decide))
  refine consecutive_append _ _ _ ?_ (enumValuesFrom_plain _ _ (by decide))
  refine consecutive_append _ _ _ ?_ (consecutive_ifdef _ _ _ (by decide))
  refine consecutive_append _ _ _ ?_ (consecutive_ifdef _ _ _ (by decide))
  refine consecutive_append _ _ _ ?_ (consecutive_ifdef _ _ _ (by decide))
  refine consecutive_append _ _ _ ?_ (consecutive_ifdef _ _ _ (by decide))
  refine consecutive_append _ _ _ ?_ (consecutive_ifdef _ _ _ (by decide))
  refine consecutive_append _ _ _ ?_ (consecutive_ifdef _ _ _ (by decide))
  refine consecutive_append _ _ _ ?_ (enumValuesFrom_plain _ _ (by decide))
  refine consecutive_append _ _ _ ?_ (consecutive_ifdef _ _ _ (by decide))
  rfl

/-- The number of enumerators of `TABLES_T` in a build. -/
theorem TABLES_T_length (cfg : BuildConfig) :
    (TABLES_T cfg).length = 27 + cfg.AIR_SUPPORT_IGMP_SNP_QUERIER.toNat
      + 2 * cfg.AIR_SUPPORT_DHCP_SNOOP.toNat + cfg.AIR_SUPPORT_SNMP.toNat
      + 3 * cfg.AIR_SUPPORT_RSTP.toNat + cfg.AIR_SUPPORT_MQTTD.toNat
      + 3 * cfg.AIR_SUPPORT_LLDPD.toNat + 4 * cfg.AIR_SUPPORT_POE.toNat
      + cfg.AIR_SUPPORT_ICMP_CLIENT.toNat + cfg.AIR_SUPPORT_SFP.toNat
      + cfg.AIR_SUPPORT_VOICE_VLAN.toNat := by
  simp only [TABLES_T, List.length_append, length_ifdef, List.length_cons, List.length_nil]
  omega

/-- In every build `TABLES_T` starts with `SYS_INFO = 0`. -/
theorem TABLES_T_head (cfg : BuildConfig) :
    (enumValues (TABLES_T cfg)).head? = some ("SYS_INFO", 0) := by
  obtain ⟨t, ht⟩ : ∃ t, TABLES_T cfg = (.eq "SYS_INFO" 0) :: t := by
    unfold TABLES_T
    simp only [List.cons_append]
    exact ⟨_, rfl⟩
  rw [ht]
  rfl

/-- C17: in every build configuration the enumerators of `TABLES_T` before
`TABLES_LAST` have the consecutive values `0 .. TABLES_LAST - 1`, starting at
`SYS_INFO = 0`, and `26 ≤ TABLES_LAST ≤ 44 < 256`, with `TABLES_LAST = 26` when no
feature macro is defined and 44 when all are; so every table index fits the
8-bit `t_idx`. -/
theorem tables_fit_index (cfg : BuildConfig) :
    ∃ last, enumLast (TABLES_T cfg) = some last
      ∧ (TABLES_T cfg).getLast? = some (.plain "TABLES_LAST")
      ∧ (enumValues (TABLES_T cfg)).head? = some ("SYS_INFO", 0)
      ∧ enumNamedValues (TABLES_T cfg) = List.range last
      ∧ (∀ v ∈ enumNamedValues (TABLES_T cfg), v < 2 ^ 8)
      ∧ 26 ≤ last ∧ last ≤ 44 ∧ last < 2 ^ 8
      ∧ enumLast (TABLES_T BuildConfig.none) = some 26
      ∧ enumLast (TABLES_T BuildConfig.all) = some 44 := by
  have hlen := TABLES_T_length cfg
  have hcons := TABLES_T_consecutive cfg
  obtain ⟨n, hn⟩ : ∃ n, (TABLES_T cfg).length = n + 1 := ⟨(TABLES_T cfg).length - 1, by omega⟩
  rw [hn] at hcons
  obtain ⟨hlast, hnamed⟩ := enum_of_consecutive (TABLES_T cfg) 0 n hcons
  have hq := Bool.toNat_le cfg.AIR_SUPPORT_IGMP_SNP_QUERIER
  have hd := Bool.toNat_le cfg.AIR_SUPPORT_DHCP_SNOOP
  have hs := Bool.toNat_le cfg.AIR_SUPPORT_SNMP
  have hr := Bool.toNat_le cfg.AIR_SUPPORT_RSTP
  have hm := Bool.toNat_le cfg.AIR_SUPPORT_MQTTD
  have hl := Bool.toNat_le cfg.AIR_SUPPORT_LLDPD
  have hp := Bool.toNat_le cfg.AIR_SUPPORT_POE
  have hi := Bool.toNat_le cfg.AIR_SUPPORT_ICMP_CLIENT
  have hf := Bool.toNat_le cfg.AIR_SUPPORT_SFP
  have hv := Bool.toNat_le cfg.AIR_SUPPORT_VOICE_VLAN
  have hn44 : n ≤ 44 := by omega
  refine ⟨n, by simpa using hlast, ?_, TABLES_T_head cfg, ?_, ?_, by omega, hn44, by omega, ?_, ?_⟩
  · unfold TABLES_T
    rw [List.getLast?_concat]
  · rw [hnamed, List.range_eq_range']
  · intro v hv
    rw [hnamed] at hv
    have := (List.mem_range'_1.mp hv).2
    omega
  · decide
  · decide

/-- The two forms of `L2_MC_ENTRY_T` and of `MIB_CNT_T` and the fifteen field
enumerations that do not depend on the build all number their fields from 1. -/
theorem field_enumerations_from_one (E : List Enumerator)
    (hE : E ∈ [SYS_OPER_INFO_T, PORT_OPER_INFO_T, PORT_CABLE_DIAG_T, LOGON_INFO_T,
      L2_MC_ENTRY_T BuildConfig.none, L2_MC_ENTRY_T BuildConfig.all, SYSTEM_T,
      PORT_OPER_SETTING_T, ICMP_CLIENT_INFO_T, SFP_MODULE_INFO_T, VOICE_OPER_INFO_T,
      MIB_CNT_T BuildConfig.none, MIB_CNT_T BuildConfig.all, DYNAMIC_MAC_ADDRESS_ENTRY_CFG_T,
      DYNAMIC_MAC_ADDRESS_ENTRY_T, RSTP_PORT_OPER_INFO_T, LLDP_CLIENT_INFO_T, POE_STATUS_T,
      POE_PORT_STATUS_T]) :
    enumLast E = some E.length
      ∧ enumNamedValues E = List.range' 1 (E.length - 1)
      ∧ DB_ALL_FIELDS ∉ enumNamedValues E
      ∧ 2 ≤ E.length := by
  revert E
  decide

/-- The enumeration `L2_MC_ENTRY_T` of a build is one of its two forms. -/
theorem L2_MC_ENTRY_T_cases (cfg : BuildConfig) :
    L2_MC_ENTRY_T cfg = L2_MC_ENTRY_T BuildConfig.none
      ∨ L2_MC_ENTRY_T cfg = L2_MC_ENTRY_T BuildConfig.all := by
  unfold L2_MC_ENTRY_T
  cases cfg.AIR_SUPPORT_IGMP_SNP_SEARCH_MAC_TABLE
  · exact Or.inl rfl
  · exact Or.inr rfl

/-- The enumeration `MIB_CNT_T` of a build is one of its two forms. -/
theorem MIB_CNT_T_cases (cfg : BuildConfig) :
    MIB_CNT_T cfg = MIB_CNT_T BuildConfig.none ∨ MIB_CNT_T cfg = MIB_CNT_T BuildConfig.all := by
  unfold MIB_CNT_T
  cases cfg.AIR_SUPPORT_SNMP
  · exact Or.inl rfl
  · exact Or.inr rfl

/-- C11: `DB_ALL_FIELDS = 0` and `DB_ALL_ENTRIES = 0`, and in every build
configuration every field enumeration the header declares numbers its named
fields `1, 2, .., LAST - 1` without gaps (`LAST` being the number of its
enumerators), so no named field has the index `DB_ALL_FIELDS`. -/
theorem field_wildcard_distinct (cfg : BuildConfig) :
    DB_ALL_FIELDS = 0 ∧ DB_ALL_ENTRIES = 0
    ∧ (fieldEnumerations cfg).length ≥ 10
    ∧ ∀ E ∈ fieldEnumerations cfg,
        enumLast E = some E.length
        ∧ enumNamedValues E = List.range' 1 (E.length - 1)
        ∧ DB_ALL_FIELDS ∉ enumNamedValues E
        ∧ 2 ≤ E.length := by
  refine ⟨rfl, rfl, ?_, ?_⟩
  · simp only [fieldEnumerations, List.length_append, List.length_cons, List.length_nil]
    omega
  · intro E hE
    apply field_enumerations_from_one
    simp only [fieldEnumerations, List.mem_append, List.mem_cons, List.mem_ite_nil_right,
      List.mem_singleton, List.not_mem_nil, or_false] at hE
    have hl2 := L2_MC_ENTRY_T_cases cfg
    have hmib := MIB_CNT_T_cases cfg
    simp only [List.mem_cons, List.mem_singleton, List.not_mem_nil, or_false]
    rcases hE with (((((((h | h | h | h | h | h | h) | ⟨_, h⟩) | ⟨_, h⟩) | ⟨_, h⟩)
      | h | h | h) | ⟨_, h⟩) | ⟨_, h⟩) | ⟨_, h | h⟩
    all_goals
      rcases hl2 with h2 | h2 <;> rcases hmib with h3 | h3 <;>
        simp only [h, h2, h3, true_or, or_true]

/-- C12: the nine method values `M_GET` .. `M_ACK` are pairwise distinct, so the
map from operation variant to method byte is injective, and the decoder that
matches on these values gives the variant back: `ofMethod (toMethod v) = v` for
every variant, and a byte it decodes is the byte of the variant it answers. -/
theorem method_decoding_well_defined :
    definedMethods.Nodup
    ∧ Operation.all.map Operation.toMethod = definedMethods
    ∧ Function.Injective Operation.toMethod
    ∧ (∀ v : Operation, Operation.ofMethod v.toMethod = some v)
    ∧ (∀ b ∈ definedMethods, ∃ v, Operation.ofMethod b = some v ∧ v.toMethod = b) := by
  have hround : ∀ v : Operation, Operation.ofMethod v.toMethod = some v := by
    intro v
    cases v <;> decide
  refine ⟨by decide, rfl, ?_, hround, by decide⟩
  intro a b hab
  have := hround a
  rw [hab, hround b] at this
  exact (Option.some.inj this).symm

/-- C18: among the nine defined method values, `M_UPDATE` is the only one with the
write bit set and the create and delete bits clear, `M_CREATE` the only one with
write and create set, `M_DELETE` the only one with write and delete set; no
write method has the subscribed bit and no subscription method has the write
bit. -/
theorem method_classification :
    (∀ m ∈ definedMethods,
      (m &&& M_B_WRITE ≠ 0 ∧ m &&& M_B_CREATE = 0 ∧ m &&& M_B_DELETE = 0) ↔ m = M_UPDATE)
    ∧ (∀ m ∈ definedMethods, (m &&& M_B_WRITE ≠ 0 ∧ m &&& M_B_CREATE ≠ 0) ↔ m = M_CREATE)
    ∧ (∀ m ∈ definedMethods, (m &&& M_B_WRITE ≠ 0 ∧ m &&& M_B_DELETE ≠ 0) ↔ m = M_DELETE)
    ∧ (M_UPDATE &&& M_B_SUBSCRIBED = 0 ∧ M_CREATE &&& M_B_SUBSCRIBED = 0
        ∧ M_DELETE &&& M_B_SUBSCRIBED = 0)
    ∧ (M_SUBSCRIBE &&& M_B_WRITE = 0 ∧ M_UNSUBSCRIBE &&& M_B_WRITE = 0) := by
  decide

/-- C19, as stated, fails: `M_CLIENT_REQ` is `0x1F`, while the OR of the write,
create, delete and subscribe bits is `0x0F`. -/
theorem client_req_not_four_bits :
    M_CLIENT_REQ ≠ M_B_WRITE ||| M_B_CREATE ||| M_B_DELETE ||| M_B_SUBSCRIBED
    ∧ M_CLIENT_REQ = 0x1F
    ∧ M_B_WRITE ||| M_B_CREATE ||| M_B_DELETE ||| M_B_SUBSCRIBED = 0x0F := by
  decide

/-- C19, amended: the client-request mask is the OR of the write, create, delete,
subscribe and flash-read bits,
`M_CLIENT_REQ = M_B_WRITE | M_B_CREATE | M_B_DELETE | M_B_SUBSCRIBED | M_B_GETFLASH`. -/
theorem client_req_five_bits :
    M_CLIENT_REQ
      = M_B_WRITE ||| M_B_CREATE ||| M_B_DELETE ||| M_B_SUBSCRIBED ||| M_B_GETFLASH := by
  decide

/-- C20, as stated, fails: bit 4 is not reserved, `M_B_GETFLASH` is `BIT(4)` and
`M_GETFLASH` has it set. -/
theorem bit4_not_reserved :
    M_B_GETFLASH ∈ methodBits ∧ M_B_GETFLASH &&& (BIT 4 ||| BIT 5 ||| BIT 6) ≠ 0
    ∧ M_GETFLASH ∈ definedMethods ∧ M_GETFLASH &&& (BIT 4 ||| BIT 5 ||| BIT 6) ≠ 0 := by
  decide

/-- C20, amended: bits 5 and 6 of the method bitmap are reserved, none of the six
method bit constants and none of the nine defined method values has bit 5 or
bit 6 set; bit 4 is the flash-read bit, set in `M_B_GETFLASH` alone among the
bit constants and in `M_GETFLASH` alone among the method values. -/
theorem bits_5_6_reserved :
    (∀ b ∈ methodBits, b &&& (BIT 5 ||| BIT 6) = 0)
    ∧ (∀ m ∈ definedMethods, m &&& (BIT 5 ||| BIT 6) = 0)
    ∧ (∀ b ∈ methodBits, b &&& BIT 4 ≠ 0 ↔ b = M_B_GETFLASH)
    ∧ (∀ m ∈ definedMethods, m &&& BIT 4 ≠ 0 ↔ m = M_GETFLASH) := by
  decide

/-- The position lookup finds nothing exactly when the name is not listed. -/
theorem nameIndex_eq_none (names : List (List Nat)) (name : List Nat) :
    nameIndex names name = none ↔ name ∉ names := by
  induction names with
  | nil => simp [nameIndex]
  | cons n ns ih =>
    by_cases h : n = name
    · simp [nameIndex, h]
    · have h2 : ¬ name = n := fun e => h e.symm
      simp [nameIndex, h, h2, ih]

/-- An initialised lookup of a well-formed request fails as not found exactly
when the key is unknown. -/
theorem registryLookup_not_found {α : Type} (db : StoreEngine) (hin : db.inited = true)
    (found : Option α) :
    registryLookup db true found = .error .MW_E_ENTRY_NOT_FOUND ↔ found = none := by
  cases found <;> simp [registryLookup, hin]

/-- An initialised lookup of a malformed request is a bad parameter. -/
theorem registryLookup_bad_parameter {α : Type} (db : StoreEngine) (hin : db.inited = true)
    (found : Option α) :
    registryLookup db false found = .error .MW_E_BAD_PARAMETER := by
  simp [registryLookup, hin]

/-- A lookup followed by the copy of a name fails as not found exactly when the
key is unknown. -/
theorem registryLookup_copyName_not_found {α : Type} (db : StoreEngine)
    (hin : db.inited = true) (found : Option α) (data_size : Nat) (name : α → List Nat) :
    (registryLookup db true found).bind (fun v => copyName data_size (name v))
        = .error .MW_E_ENTRY_NOT_FOUND
      ↔ found = none := by
  cases found with
  | none => simp [registryLookup, hin, Except.bind]
  | some v =>
    by_cases h : (name v).length < data_size <;>
      simp [registryLookup, hin, Except.bind, copyName, h]

/-- C13: `dbapi_dbisReady` returns `MW_E_OK` when the database is initialised and
`MW_E_NOT_INITED` otherwise, and while the engine is `Uninitialized` every other
store operation fails with `MW_E_NOT_INITED`, whatever its arguments and
whatever it would have answered once `Ready`: `dbapi_getDataSize`,
`dbapi_sendRequesttoDb`, `dbapi_sendMsg`, `dbapi_recvMsg`, `dbapi_getData`,
`dbapi_setData`, the config-file operations, `dbapi_dumpRaw` and the seven
table and field lookups.  So `MW_E_NOT_INITED` is among the results each of
them can return. -/
theorem uninitialized_not_ready (tables : List TableInfo) :
    (∀ db : StoreEngine, dbapi_dbisReady db.inited = .MW_E_OK ↔ db.inited = true)
    ∧ (∀ db : StoreEngine, dbapi_dbisReady db.inited = .MW_E_NOT_INITED ↔ db.inited = false)
    ∧ (∀ req total_size,
        dbapi_getDataSize ⟨false, tables⟩ req total_size = .error .MW_E_NOT_INITED)
    ∧ (∀ size msg sent,
        dbapi_sendRequesttoDb ⟨false, tables⟩ size msg sent = .error .MW_E_NOT_INITED)
    ∧ (∀ msg timeout sent,
        dbapi_sendMsg ⟨false, tables⟩ msg timeout sent = .error .MW_E_NOT_INITED)
    ∧ (∀ client_qname timeout received,
        dbapi_recvMsg ⟨false, tables⟩ client_qname timeout received = .error .MW_E_NOT_INITED)
    ∧ (∀ client_qname msg timeout exchanged,
        dbapi_getData ⟨false, tables⟩ client_qname msg timeout exchanged
          = .error .MW_E_NOT_INITED)
    ∧ (∀ client_qname msg timeout exchanged,
        dbapi_setData ⟨false, tables⟩ client_qname msg timeout exchanged
          = .error .MW_E_NOT_INITED)
    ∧ (∀ showstartup shown,
        dbapi_showCfgFile ⟨false, tables⟩ showstartup shown = .error .MW_E_NOT_INITED)
    ∧ (∀ savestartup saved,
        dbapi_saveCfgFile ⟨false, tables⟩ savestartup saved = .error .MW_E_NOT_INITED)
    ∧ (∀ image, dbapi_getCfgFile ⟨false, tables⟩ image = .error .MW_E_NOT_INITED)
    ∧ (∀ clrstartup cleared,
        dbapi_clrCfgFile ⟨false, tables⟩ clrstartup cleared = .error .MW_E_NOT_INITED)
    ∧ (∀ t_idx f_idx dumped,
        dbapi_dumpRaw ⟨false, tables⟩ t_idx f_idx dumped = .error .MW_E_NOT_INITED)
    ∧ (∀ table_name ptrs,
        dbapi_getTableIdx ⟨false, tables⟩ table_name ptrs = .error .MW_E_NOT_INITED)
    ∧ (∀ t_idx field_name ptrs,
        dbapi_getFieldIdx ⟨false, tables⟩ t_idx field_name ptrs = .error .MW_E_NOT_INITED)
    ∧ (∀ t_idx data_size ptrs,
        dbapi_getTableName ⟨false, tables⟩ t_idx data_size ptrs = .error .MW_E_NOT_INITED)
    ∧ (∀ t_idx f_idx data_size ptrs,
        dbapi_getFieldName ⟨false, tables⟩ t_idx f_idx data_size ptrs
          = .error .MW_E_NOT_INITED)
    ∧ (∀ t_idx ptrs,
        dbapi_getFieldsNum ⟨false, tables⟩ t_idx ptrs = .error .MW_E_NOT_INITED)
    ∧ (∀ t_idx f_idx ptrs,
        dbapi_getFieldSize ⟨false, tables⟩ t_idx f_idx ptrs = .error .MW_E_NOT_INITED)
    ∧ (∀ t_idx ptrs,
        dbapi_getEntriesNum ⟨false, tables⟩ t_idx ptrs = .error .MW_E_NOT_INITED) := by
  refine ⟨?_, ?_, ?_, ?_, ?_, ?_, ?_, ?_, ?_, ?_, ?_, ?_, ?_, ?_, ?_, ?_, ?_, ?_, ?_, ?_⟩
  · intro db
    cases db.inited <;> simp [dbapi_dbisReady]
  · intro db
    cases db.inited <;> simp [dbapi_dbisReady]
  all_goals intros; rfl

/-- C14: in an initialised engine each registry lookup, given a well-formed
request, fails with `MW_E_ENTRY_NOT_FOUND` exactly when the table or field it
is asked for is unknown: no table of that name, no field of that name in the
table, no table of that index, no field of that index.  Given a malformed
request each fails with `MW_E_BAD_PARAMETER`, which is a different result. -/
theorem lookups_unknown_key_not_found (db : StoreEngine) (hin : db.inited = true) :
    MW_ERROR_NO_T.MW_E_ENTRY_NOT_FOUND ≠ MW_ERROR_NO_T.MW_E_BAD_PARAMETER
    ∧ (∀ table_name, dbapi_getTableIdx db table_name true = .error .MW_E_ENTRY_NOT_FOUND
        ↔ ∀ t ∈ db.tables, t.name ≠ table_name)
    ∧ (∀ t_idx field_name,
        dbapi_getFieldIdx db t_idx field_name true = .error .MW_E_ENTRY_NOT_FOUND
          ↔ ∀ t, db.table t_idx = some t → ∀ f ∈ t.fields, f.name ≠ field_name)
    ∧ (∀ t_idx data_size,
        dbapi_getTableName db t_idx data_size true = .error .MW_E_ENTRY_NOT_FOUND
          ↔ db.table t_idx = none)
    ∧ (∀ t_idx f_idx data_size,
        dbapi_getFieldName db t_idx f_idx data_size true = .error .MW_E_ENTRY_NOT_FOUND
          ↔ db.field t_idx f_idx = none)
    ∧ (∀ t_idx, dbapi_getFieldsNum db t_idx true = .error .MW_E_ENTRY_NOT_FOUND
        ↔ db.table t_idx = none)
    ∧ (∀ t_idx f_idx, dbapi_getFieldSize db t_idx f_idx true = .error .MW_E_ENTRY_NOT_FOUND
        ↔ db.field t_idx f_idx = none)
    ∧ (∀ t_idx, dbapi_getEntriesNum db t_idx true = .error .MW_E_ENTRY_NOT_FOUND
        ↔ db.table t_idx = none)
    ∧ (∀ table_name, dbapi_getTableIdx db table_name false = .error .MW_E_BAD_PARAMETER)
    ∧ (∀ t_idx field_name,
        dbapi_getFieldIdx db t_idx field_name false = .error .MW_E_BAD_PARAMETER)
    ∧ (∀ t_idx data_size,
        dbapi_getTableName db t_idx data_size false = .error .MW_E_BAD_PARAMETER)
    ∧ (∀ t_idx f_idx data_size,
        dbapi_getFieldName db t_idx f_idx data_size false = .error .MW_E_BAD_PARAMETER)
    ∧ (∀ t_idx, dbapi_getFieldsNum db t_idx false = .error .MW_E_BAD_PARAMETER)
    ∧ (∀ t_idx f_idx, dbapi_getFieldSize db t_idx f_idx false = .error .MW_E_BAD_PARAMETER)
    ∧ (∀ t_idx, dbapi_getEntriesNum db t_idx false = .error .MW_E_BAD_PARAMETER) := by
  refine ⟨by decide, ?_, ?_, ?_, ?_, ?_, ?_, ?_, ?_, ?_, ?_, ?_, ?_, ?_, ?_⟩
  · intro table_name
    unfold dbapi_getTableIdx
    rw [registryLookup_not_found db hin, Option.map_eq_none', nameIndex_eq_none]
    simp only [List.mem_map, not_exists, not_and, ne_eq]
  · intro t_idx field_name
    unfold dbapi_getFieldIdx
    rw [registryLookup_not_found db hin]
    cases ht : db.table t_idx with
    | none => simp
    | some t =>
      simp only [Option.some_bind, Option.map_eq_none', nameIndex_eq_none, List.mem_map,
        not_exists, not_and, Option.some.injEq]
      exact ⟨fun h t2 e f hf => by subst e; exact h f hf, fun h f hf => h t rfl f hf⟩
  · intro t_idx data_size
    exact registryLookup_copyName_not_found db hin _ _ _
  · intro t_idx f_idx data_size
    exact registryLookup_copyName_not_found db hin _ _ _
  · intro t_idx
    unfold dbapi_getFieldsNum
    rw [registryLookup_not_found db hin, Option.map_eq_none']
  · intro t_idx f_idx
    unfold dbapi_getFieldSize
    rw [registryLookup_not_found db hin, Option.map_eq_none']
  · intro t_idx
    unfold dbapi_getEntriesNum
    rw [registryLookup_not_found db hin, Option.map_eq_none']
  · intro table_name
    exact registryLookup_bad_parameter db hin _
  · intro t_idx field_name
    exact registryLookup_bad_parameter db hin _
  · intro t_idx data_size
    simp [dbapi_getTableName, registryLookup_bad_parameter db hin, Except.bind]
  · intro t_idx f_idx data_size
    simp [dbapi_getFieldName, registryLookup_bad_parameter db hin, Except.bind]
  · intro t_idx
    exact registryLookup_bad_parameter db hin _
  · intro t_idx f_idx
    exact registryLookup_bad_parameter db hin _
  · intro t_idx
    exact registryLookup_bad_parameter db hin _

/-- Witness for C14: a registry of two tables, `sys` with the fields `mac` and
`ip`, and `port` with the field `up`.  The table name `vlan` is unknown to
`dbapi_getTableIdx`, and `port` is not. -/
theorem lookups_unknown_key_not_found_witness :
    dbapi_getTableIdx
        ⟨true, [⟨[115, 121, 115], [⟨[109, 97, 99], 6⟩, ⟨[105, 112], 4⟩], 1⟩,
                ⟨[112, 111, 114, 116], [⟨[117, 112], 1⟩], 28⟩]⟩
        [118, 108, 97, 110] true = .error .MW_E_ENTRY_NOT_FOUND
    ∧ dbapi_getTableIdx
        ⟨true, [⟨[115, 121, 115], [⟨[109, 97, 99], 6⟩, ⟨[105, 112], 4⟩], 1⟩,
                ⟨[112, 111, 114, 116], [⟨[117, 112], 1⟩], 28⟩]⟩
        [118, 108, 97, 110] false = .error .MW_E_BAD_PARAMETER
    ∧ dbapi_getTableIdx
        ⟨true, [⟨[115, 121, 115], [⟨[109, 97, 99], 6⟩, ⟨[105, 112], 4⟩], 1⟩,
                ⟨[112, 111, 114, 116], [⟨[117, 112], 1⟩], 28⟩]⟩
        [112, 111, 114, 116] true = .ok 1
    ∧ dbapi_getFieldSize
        ⟨true, [⟨[115, 121, 115], [⟨[109, 97, 99], 6⟩, ⟨[105, 112], 4⟩], 1⟩,
                ⟨[112, 111, 114, 116], [⟨[117, 112], 1⟩], 28⟩]⟩
        1 2 true = .error .MW_E_ENTRY_NOT_FOUND
    ∧ dbapi_getFieldSize
        ⟨true, [⟨[115, 121, 115], [⟨[109, 97, 99], 6⟩, ⟨[105, 112], 4⟩], 1⟩,
                ⟨[112, 111, 114, 116], [⟨[117, 112], 1⟩], 28⟩]⟩
        0 2 true = .ok 4 :=
  ⟨((lookups_unknown_key_not_found
        ⟨true, [⟨[115, 121, 115], [⟨[109, 97, 99], 6⟩, ⟨[105, 112], 4⟩], 1⟩,
                ⟨[112, 111, 114, 116], [⟨[117, 112], 1⟩], 28⟩]⟩ rfl).2.1
      [118, 108, 97, 110]).mpr (by decide),
   (lookups_unknown_key_not_found
        ⟨true, [⟨[115, 121, 115], [⟨[109, 97, 99], 6⟩, ⟨[105, 112], 4⟩], 1⟩,
                ⟨[112, 111, 114, 116], [⟨[117, 112], 1⟩], 28⟩]⟩ rfl).2.2.2.2.2.2.2.2.1
      [118, 108, 97, 110],
   rfl,
   ((lookups_unknown_key_not_found
        ⟨true, [⟨[115, 121, 115], [⟨[109, 97, 99], 6⟩, ⟨[105, 112], 4⟩], 1⟩,
                ⟨[112, 111, 114, 116], [⟨[117, 112], 1⟩], 28⟩]⟩ rfl).2.2.2.2.2.2.1
      1 2).mpr rfl,
   rfl⟩

/-- A payload entry takes `DB_MSG_PAYLOAD_SIZE` bytes and its data. -/
theorem setMsgPayload_length (bigEndian : Bool) (method t f e : Nat) (d : List Nat) :
    (dbapi_setMsgPayload bigEndian method t f e d).1.length = 6 + d.length := by
  cases bigEndian <;> simp [dbapi_setMsgPayload, storeUI16] <;> omega

/-- Reading the entry that `dbapi_setMsgPayload` wrote at the end of `pre`. -/
theorem parseMsg_entry (bigEndian : Bool) (method count cursor : Nat) (first : Bool)
    (pre post : List Nat) (e : DB_REQUEST_TYPE_T × List Nat) (he : entryFits e)
    (hcount : 0 < count)
    (hat : (if first then DB_MSG_HEADER_SIZE TARGET_POINTER_WIDTH else cursor) = pre.length) :
    dbapi_parseMsg bigEndian
        (pre ++ (dbapi_setMsgPayload bigEndian method e.1.t_idx e.1.f_idx e.1.e_idx e.2).1 ++ post)
        count first cursor
      = .ok ⟨e.1, e.2.length, pre.length + 6, pre.length + 6 + e.2.length⟩
    ∧ ((pre ++ (dbapi_setMsgPayload bigEndian method e.1.t_idx e.1.f_idx e.1.e_idx e.2).1
          ++ post).drop (pre.length + 6)).take e.2.length = e.2 := by
  obtain ⟨⟨t, f, x⟩, d⟩ := e
  obtain ⟨ht, hf, hx, hd⟩ := he
  simp only at ht hf hx hd ⊢
  obtain ⟨e0, e1, hes, hel⟩ := storeUI16_loadUI16 bigEndian x hx
  obtain ⟨s0, s1, hss, hsl⟩ := storeUI16_loadUI16 bigEndian d.length hd
  have hps : DB_MSG_PAYLOAD_SIZE TARGET_POINTER_WIDTH = 6 := rfl
  have hmsg : pre ++ (dbapi_setMsgPayload bigEndian method t f x d).1 ++ post
      = pre ++ (t :: f :: e0 :: e1 :: s0 :: s1 :: (d ++ post)) := by
    simp [dbapi_setMsgPayload, hes, hss, Nat.mod_eq_of_lt ht, Nat.mod_eq_of_lt hf]
  rw [hmsg]
  constructor
  · unfold dbapi_parseMsg
    rw [if_neg (by omega)]
    simp only [hat, List.drop_left, hsl, hel, hps]
    rw [if_pos (by simp)]
  · rw [← List.drop_drop, List.drop_left]
    simp

/-- Sequential decoding of the entries `es` written after `pre`. -/
theorem parseMsgN_entries (bigEndian : Bool) (method count : Nat)
    (es : List (DB_REQUEST_TYPE_T × List Nat)) (pre post : List Nat) (first : Bool)
    (cursor : Nat) (hes : ∀ e ∈ es, entryFits e) (hcount : 0 < count)
    (hat : (if first then DB_MSG_HEADER_SIZE TARGET_POINTER_WIDTH else cursor) = pre.length) :
    parseMsgN bigEndian (pre ++ encodeEntries bigEndian method es ++ post) count es.length
        first cursor
      = (expectedOuts pre.length es).map .ok
    ∧ (expectedOuts pre.length es).map
          (ParseOut.bytes (pre ++ encodeEntries bigEndian method es ++ post))
        = es.map Prod.snd := by
  induction es generalizing pre first cursor with
  | nil => exact ⟨rfl, rfl⟩
  | cons e es ih =>
    obtain ⟨r, d⟩ := e
    have he : entryFits (r, d) := hes _ (List.mem_cons_self _ _)
    have hes1 : ∀ x ∈ es, entryFits x := fun x hx => hes x (List.mem_cons_of_mem _ hx)
    have hps : DB_MSG_PAYLOAD_SIZE TARGET_POINTER_WIDTH = 6 := rfl
    have hmsg : pre ++ encodeEntries bigEndian method ((r, d) :: es) ++ post
        = pre ++ (dbapi_setMsgPayload bigEndian method r.t_idx r.f_idx r.e_idx d).1
            ++ (encodeEntries bigEndian method es ++ post) := by
      simp [encodeEntries, List.append_assoc]
    have hmsg2 : pre ++ encodeEntries bigEndian method ((r, d) :: es) ++ post
        = (pre ++ (dbapi_setMsgPayload bigEndian method r.t_idx r.f_idx r.e_idx d).1)
            ++ encodeEntries bigEndian method es ++ post := by
      simp [encodeEntries, List.append_assoc]
    obtain ⟨hparse, hbytes⟩ := parseMsg_entry bigEndian method count cursor first pre
      (encodeEntries bigEndian method es ++ post) (r, d) he hcount hat
    have hlen : (pre ++ (dbapi_setMsgPayload bigEndian method r.t_idx r.f_idx r.e_idx d).1).length
        = pre.length + 6 + d.length := by
      rw [List.length_append, setMsgPayload_length]
      omega
    obtain ⟨ih1, ih2⟩ := ih (pre ++ (dbapi_setMsgPayload bigEndian method r.t_idx r.f_idx r.e_idx d).1)
      false (pre.length + 6 + d.length) hes1 (by simpa using hlen.symm)
    rw [hlen] at ih1 ih2
    constructor
    · simp only [List.length_cons, parseMsgN, expectedOuts, List.map_cons, hps]
      rw [hmsg, hparse]
      simp only
      rw [← hmsg, hmsg2, ih1]
    · simp only [expectedOuts, List.map_cons, hps, List.cons.injEq]
      constructor
      · rw [hmsg]
        exact hbytes
      · rw [hmsg2]
        exact ih2

/-- C15: for a well-formed message holding `n ≥ 1` payload entries, `n`
successive calls of `dbapi_parseMsg` (the first ignoring the incoming cursor,
each later one fed the cursor the call before returned) all return `MW_E_OK`
and give the entries in encoded order: the i-th call gives the i-th address,
its data size, a data pointer to the i-th inline data, and a cursor
`DB_MSG_PAYLOAD_SIZE + data size` after the start of entry i. -/
theorem sequential_parse (bigEndian : Bool) (method cursor : Nat)
    (es : List (DB_REQUEST_TYPE_T × List Nat)) (hdr rest : List Nat)
    (hhdr : hdr.length = DB_MSG_HEADER_SIZE TARGET_POINTER_WIDTH)
    (hne : es ≠ []) (hes : ∀ e ∈ es, entryFits e) :
    parseMsgN bigEndian (hdr ++ encodeEntries bigEndian method es ++ rest) es.length es.length
        true cursor
      = (expectedOuts (DB_MSG_HEADER_SIZE TARGET_POINTER_WIDTH) es).map .ok
    ∧ (expectedOuts (DB_MSG_HEADER_SIZE TARGET_POINTER_WIDTH) es).map
          (ParseOut.bytes (hdr ++ encodeEntries bigEndian method es ++ rest))
        = es.map Prod.snd := by
  have hpos : 0 < es.length := List.length_pos.mpr hne
  have := parseMsgN_entries bigEndian method es.length es hdr rest true cursor hes hpos
    (by simpa using hhdr.symm)
  rw [hhdr] at this
  exact this

/-- Witness for C15: a notification with three entries, the second without data,
is read back entry by entry. -/
theorem sequential_parse_witness :
    parseMsgN false
        ([100, 98, 113, 0, 136, 3]
          ++ encodeEntries false 136 [(⟨3, 2, 513⟩, [7, 8, 9]), (⟨3, 4, 0⟩, []), (⟨17, 1, 2⟩, [1, 2])]
          ++ [])
        [(⟨3, 2, 513⟩, [7, 8, 9]), (⟨3, 4, 0⟩, []),
          ((⟨17, 1, 2⟩ : DB_REQUEST_TYPE_T), [1, 2])].length
        [(⟨3, 2, 513⟩, [7, 8, 9]), (⟨3, 4, 0⟩, []),
          ((⟨17, 1, 2⟩ : DB_REQUEST_TYPE_T), [1, 2])].length
        true 0
      = (expectedOuts (DB_MSG_HEADER_SIZE TARGET_POINTER_WIDTH)
          [(⟨3, 2, 513⟩, [7, 8, 9]), (⟨3, 4, 0⟩, []), (⟨17, 1, 2⟩, [1, 2])]).map .ok
    ∧ expectedOuts (DB_MSG_HEADER_SIZE TARGET_POINTER_WIDTH)
          [(⟨3, 2, 513⟩, [7, 8, 9]), (⟨3, 4, 0⟩, []), (⟨17, 1, 2⟩, [1, 2])]
        = [⟨⟨3, 2, 513⟩, 3, 12, 15⟩, ⟨⟨3, 4, 0⟩, 0, 21, 21⟩, ⟨⟨17, 1, 2⟩, 2, 27, 29⟩] :=
  ⟨(sequential_parse false 136 0
      [(⟨3, 2, 513⟩, [7, 8, 9]), (⟨3, 4, 0⟩, []), (⟨17, 1, 2⟩, [1, 2])]
      [100, 98, 113, 0, 136, 3] [] (by decide) (by decide) (by decide)).1, by decide⟩

/-- Growing a buffer keeps its bytes and adds zeros. -/
theorem realloc_of_le (buf : List Nat) (n : Nat) (h : buf.length ≤ n) :
    realloc buf n = buf ++ List.replicate (n - buf.length) 0 := by
  unfold realloc
  apply List.take_of_length_le
  simp only [List.length_append, List.length_replicate]
  omega

/-- A copy into a buffer leaves its size as it is. -/
theorem writeAt_length (buf : List Nat) (off : Nat) (bytes : List Nat) :
    (writeAt buf off bytes).length = buf.length := by
  unfold writeAt
  simp only [List.length_append, List.length_take, List.length_drop]
  omega

/-- Writing the count byte of a message whose header is `hdr`. -/
theorem writeAt_count (hdr body : List Nat) (c : Nat) (hhdr : hdr.length = 6) :
    writeAt (hdr ++ body) 5 [c] = hdr.take 5 ++ [c] ++ body := by
  unfold writeAt
  rw [List.take_append_of_le_length (by omega)]
  have h1 : [c].take ((hdr ++ body).length - 5) = [c] := by
    apply List.take_of_length_le
    simp only [List.length_append, List.length_singleton]
    omega
  rw [h1]
  simp only [List.length_singleton]
  rw [List.drop_left' hhdr]

/-- Writing bytes right after a prefix of the buffer, where there is room. -/
theorem writeAt_append (a s b : List Nat) (hb : b.length ≤ s.length) :
    writeAt (a ++ s) a.length b = a ++ b ++ s.drop b.length := by
  unfold writeAt
  have h1 : b.take ((a ++ s).length - a.length) = b := by
    apply List.take_of_length_le
    simp only [List.length_append]
    omega
  rw [List.take_left, List.drop_append, h1]

/-- Writing the count byte and then an entry right after the bytes `body`. -/
theorem writeAt_count_entry (hdr body s entry : List Nat) (c : Nat) (hhdr : hdr.length = 6)
    (hroom : entry.length ≤ s.length) :
    writeAt (writeAt (hdr ++ body ++ s) 5 [c]) (hdr.length + body.length) entry
      = hdr.take 5 ++ [c] ++ body ++ entry ++ s.drop entry.length := by
  rw [List.append_assoc, writeAt_count _ _ _ hhdr, ← List.append_assoc]
  have hlen : (hdr.take 5 ++ [c] ++ body).length = hdr.length + body.length := by
    simp only [List.length_append, List.length_take, List.length_singleton]
    omega
  rw [← hlen, writeAt_append _ _ _ hroom]

/-- An entry that `dbapi_parseMsg` reads lies inside the message, and the cursor
it returns is past the entry's six header bytes. -/
theorem parseMsg_next_le (bigEndian : Bool) (msg : List Nat) (count cursor : Nat)
    (out : ParseOut) (h : dbapi_parseMsg bigEndian msg count false cursor = .ok out) :
    cursor + 6 ≤ out.next ∧ out.next ≤ msg.length := by
  unfold dbapi_parseMsg at h
  split at h
  · cases h
  · simp only [Bool.false_eq_true, if_false] at h
    split at h
    · rename_i t f e0 e1 s0 s1 body hd
      split at h
      · rename_i hsize
        have hps : DB_MSG_PAYLOAD_SIZE TARGET_POINTER_WIDTH = 6 := rfl
        have hl := congrArg List.length hd
        simp only [List.length_drop, List.length_cons] at hl
        cases h
        simp only [hps]
        omega
      · cases h
    · cases h

/-- The occupied region ends at or after its start, inside the message. -/
theorem occupiedEnd_bounds (bigEndian : Bool) (msg : List Nat) (n off e : Nat)
    (h : occupiedEnd bigEndian msg n off = some e) :
    off ≤ e ∧ (off ≤ msg.length → e ≤ msg.length) := by
  induction n generalizing off with
  | zero =>
    simp only [occupiedEnd, Option.some.injEq] at h
    subst h
    exact ⟨Nat.le_refl _, fun h => h⟩
  | succ n ih =>
    simp only [occupiedEnd] at h
    split at h
    · rename_i out hp
      obtain ⟨h1, h2⟩ := parseMsg_next_le _ _ _ _ _ hp
      obtain ⟨h3, h4⟩ := ih _ h
      exact ⟨by omega, fun _ => h4 h2⟩
    · cases h

/-- The reuse flag of a count byte is either clear or set. -/
theorem and_reuse_flag (x : Nat) :
    x &&& DB_COUNT_REUSE_FLAG = 0 ∨ x &&& DB_COUNT_REUSE_FLAG = 128 := by
  have h128 : DB_COUNT_REUSE_FLAG = 2 ^ 7 := by decide
  rw [h128]
  by_cases hb : x.testBit 7
  · right
    apply Nat.eq_of_testBit_eq
    intro i
    by_cases hi : i = 7
    · subst hi
      simp [hb]
    · have : (7 : Nat) ≠ i := fun e => hi e.symm
      show (x &&& 2 ^ 7).testBit i = (2 ^ 7).testBit i
      rw [Nat.testBit_and, Nat.testBit_two_pow_of_ne this, Bool.and_false]
  · left
    apply Nat.eq_of_testBit_eq
    intro i
    by_cases hi : i = 7
    · subst hi
      simp [hb]
    · have : (7 : Nat) ≠ i := fun e => hi e.symm
      rw [Nat.testBit_and, Nat.testBit_two_pow_of_ne this, Bool.and_false, Nat.zero_testBit]

set_option maxRecDepth 100000 in
/-- A count below 128 written next to a reuse flag: the effective count is that
count and the flag is as it was. -/
theorem count_with_flag (x m : Nat) (hm : m < 128) :
    effectiveCount ((x &&& DB_COUNT_REUSE_FLAG) ||| m) = m
    ∧ ((x &&& DB_COUNT_REUSE_FLAG) ||| m) &&& DB_COUNT_REUSE_FLAG
        = x &&& DB_COUNT_REUSE_FLAG := by
  have h0 : ∀ m < 128, effectiveCount (0 ||| m) = m
      ∧ (0 ||| m) &&& DB_COUNT_REUSE_FLAG = 0 := by decide
  have h1 : ∀ m < 128, effectiveCount (128 ||| m) = m
      ∧ (128 ||| m) &&& DB_COUNT_REUSE_FLAG = 128 := by decide
  rcases and_reuse_flag x with h | h
  · rw [h]
    exact h0 m hm
  · rw [h]
    exact h1 m hm

/-- The entry written for an address is the one written for the address as its
members hold it. -/
theorem setMsgPayload_stored (bigEndian : Bool) (method : Nat) (r : DB_REQUEST_TYPE_T)
    (d : List Nat) :
    dbapi_setMsgPayload bigEndian method r.stored.t_idx r.stored.f_idx r.stored.e_idx d
      = dbapi_setMsgPayload bigEndian method r.t_idx r.f_idx r.e_idx d := by
  have h1 : r.e_idx % 65536 % 256 = r.e_idx % 256 := by omega
  cases bigEndian <;>
    simp [dbapi_setMsgPayload, storeUI16, DB_REQUEST_TYPE_T.stored, h1]

/-- What a successful `dbapi_appendMsgPayload` has checked, and what it returns. -/
theorem appendMsgPayload_ok (bigEndian : Bool) (r : DB_REQUEST_TYPE_T) (d msg : List Nat)
    (msg_size cursor : Nat) (out : AppendOut)
    (hok : dbapi_appendMsgPayload bigEndian r d msg msg_size cursor = .ok out) :
    msg_size = msg.length
    ∧ 6 ≤ msg.length
    ∧ occupiedEnd bigEndian msg (requestsBefore msg cursor) 6 = some cursor
    ∧ requestsBefore msg cursor + 1 < 128
    ∧ cursor + (6 + d.length) ≤ 65535
    ∧ out.msg = writeAt (writeAt
          (if msg.length < cursor + (6 + d.length) then realloc msg (cursor + (6 + d.length))
            else msg) 5
          [(msg.getD 5 0 &&& DB_COUNT_REUSE_FLAG) ||| (requestsBefore msg cursor + 1)]) cursor
          (dbapi_setMsgPayload bigEndian (msg.getD 4 0) r.t_idx r.f_idx r.e_idx d).1
    ∧ out.msg_size = (if msg.length < cursor + (6 + d.length) then cursor + (6 + d.length)
        else msg.length)
    ∧ out.shifted_payload = cursor + (6 + d.length) := by
  have hhs : DB_MSG_HEADER_SIZE TARGET_POINTER_WIDTH = 6 := rfl
  have hfl : DB_COUNT_REUSE_FLAG = 128 := rfl
  unfold dbapi_appendMsgPayload at hok
  simp only [setMsgPayload_length, hhs] at hok
  split at hok
  · cases hok
  · rename_i h0
    have hms : msg_size = msg.length := Decidable.of_not_not h0
    subst hms
    split at hok
    · cases hok
    · rename_i h1
      split at hok
      · cases hok
      · rename_i h2
        split at hok
        · cases hok
        · rename_i h3
          split at hok
          · cases hok
          · rename_i h4
            cases hok
            rw [hfl] at h3
            refine ⟨rfl, by omega, ?_, by omega, by omega, rfl, rfl, rfl⟩
            exact Decidable.of_not_not h2
/-- A list from one of its elements on. -/
theorem drop_of_getElem_some (l : List Nat) (n a : Nat) (h : l[n]? = some a) :
    l.drop n = a :: l.drop (n + 1) := by
  obtain ⟨hlt, rfl⟩ := List.getElem?_eq_some.mp h
  exact List.drop_eq_getElem_cons hlt

/-- Reading an entry depends only on the bytes of the entry: a message that has
the same bytes there, and is long enough, reads the same. -/
theorem parseMsg_congr (bigEndian : Bool) (msg msg2 : List Nat) (cursor : Nat)
    (out : ParseOut) (h : dbapi_parseMsg bigEndian msg 1 false cursor = .ok out)
    (hagree : ∀ i, cursor ≤ i → i < out.next → msg2[i]? = msg[i]?)
    (hlen : out.next ≤ msg2.length) :
    dbapi_parseMsg bigEndian msg2 1 false cursor = .ok out := by
  have hps : DB_MSG_PAYLOAD_SIZE TARGET_POINTER_WIDTH = 6 := rfl
  unfold dbapi_parseMsg at h ⊢
  simp only [Nat.one_ne_zero, if_false, Bool.false_eq_true, hps] at h ⊢
  split at h
  · rename_i t f e0 e1 s0 s1 body hd
    split at h
    · rename_i hsize
      cases h
      simp only at hagree hlen
      have g : ∀ j, j < 6 →
          msg2[cursor + j]? = (t :: f :: e0 :: e1 :: s0 :: s1 :: body)[j]? := by
        intro j hj
        rw [hagree (cursor + j) (by omega) (by omega), ← hd, List.getElem?_drop]
      have d0 := drop_of_getElem_some msg2 cursor t ((g 0 (by omega)).trans (by simp))
      have d1 := drop_of_getElem_some msg2 (cursor + 1) f ((g 1 (by omega)).trans (by simp))
      have d2 := drop_of_getElem_some msg2 (cursor + 2) e0 ((g 2 (by omega)).trans (by simp))
      have d3 := drop_of_getElem_some msg2 (cursor + 3) e1 ((g 3 (by omega)).trans (by simp))
      have d4 := drop_of_getElem_some msg2 (cursor + 4) s0 ((g 4 (by omega)).trans (by simp))
      have d5 := drop_of_getElem_some msg2 (cursor + 5) s1 ((g 5 (by omega)).trans (by simp))
      rw [d0, d1, d2, d3, d4, d5]
      simp only
      rw [if_pos]
      simp only [List.length_drop]
      omega
    · cases h
  · cases h

/-- The occupied region depends only on its own bytes. -/
theorem occupiedEnd_congr (bigEndian : Bool) (msg msg2 : List Nat) (n off e : Nat)
    (h : occupiedEnd bigEndian msg n off = some e)
    (hagree : ∀ i, off ≤ i → i < e → msg2[i]? = msg[i]?)
    (hlen : e ≤ msg2.length) :
    occupiedEnd bigEndian msg2 n off = some e := by
  induction n generalizing off with
  | zero => exact h
  | succ n ih =>
    simp only [occupiedEnd] at h ⊢
    split at h
    · rename_i out hp
      obtain ⟨h1, h2⟩ := parseMsg_next_le _ _ _ _ _ hp
      obtain ⟨h3, h4⟩ := occupiedEnd_bounds _ _ _ _ _ h
      rw [parseMsg_congr bigEndian msg msg2 off out hp
        (fun i hi1 hi2 => hagree i hi1 (by omega)) (by omega)]
      exact ih _ h (fun i hi1 hi2 => hagree i (by omega) hi2)
    · cases h

/-- The occupied region of `n + 1` entries is that of `n` entries and one more. -/
theorem occupiedEnd_succ (bigEndian : Bool) (msg : List Nat) (n off : Nat) :
    occupiedEnd bigEndian msg (n + 1) off
      = (occupiedEnd bigEndian msg n off).bind (fun e => occupiedEnd bigEndian msg 1 e) := by
  induction n generalizing off with
  | zero => rfl
  | succ n ih =>
    rw [occupiedEnd]
    split
    · rename_i out hp
      rw [ih]
      simp only [occupiedEnd, hp]
    · rename_i err hp
      simp only [occupiedEnd, hp, Option.none_bind]

/-- The message a successful `dbapi_appendMsgPayload` returns, written out: the
first five header bytes, the count byte, the payload bytes before the cursor,
the new entry, and what is left of the buffer. -/
theorem appendMsgPayload_msg (bigEndian : Bool) (r : DB_REQUEST_TYPE_T) (d msg : List Nat)
    (msg_size cursor : Nat) (out : AppendOut)
    (hok : dbapi_appendMsgPayload bigEndian r d msg msg_size cursor = .ok out) :
    6 ≤ cursor ∧ cursor ≤ msg.length
    ∧ ∃ tail, out.msg
        = msg.take 5
          ++ [(msg.getD 5 0 &&& DB_COUNT_REUSE_FLAG) ||| (requestsBefore msg cursor + 1)]
          ++ (msg.drop 6).take (cursor - 6)
          ++ (dbapi_setMsgPayload bigEndian (msg.getD 4 0) r.t_idx r.f_idx r.e_idx d).1
          ++ tail
      ∧ out.msg_size = cursor + (6 + d.length) + tail.length := by
  obtain ⟨_, h6, hocc, hn, hsz, hmsg, hsize, hcur⟩ := appendMsgPayload_ok _ _ _ _ _ _ _ hok
  obtain ⟨hb1, hb2⟩ := occupiedEnd_bounds _ _ _ _ _ hocc
  have hcl := hb2 h6
  refine ⟨hb1, hcl, ?_⟩
  generalize hE : (dbapi_setMsgPayload bigEndian (msg.getD 4 0) r.t_idx r.f_idx r.e_idx d).1
    = E at hmsg ⊢
  have hEl : E.length = 6 + d.length := by rw [← hE, setMsgPayload_length]
  generalize (msg.getD 5 0 &&& DB_COUNT_REUSE_FLAG) ||| (requestsBefore msg cursor + 1) = c
    at hmsg ⊢
  have hHl : (msg.take 6).length = 6 := by
    rw [List.length_take]
    omega
  have hBl : ((msg.drop 6).take (cursor - 6)).length = cursor - 6 := by
    rw [List.length_take, List.length_drop]
    omega
  have hsplit : msg = msg.take 6 ++ (msg.drop 6).take (cursor - 6) ++ msg.drop cursor := by
    have e1 : (msg.drop 6).drop (cursor - 6) = msg.drop cursor := by
      rw [List.drop_drop]
      congr 1
      omega
    rw [List.append_assoc, ← e1, List.take_append_drop, List.take_append_drop]
  have hH5 : (msg.take 6).take 5 = msg.take 5 := by
    simp [List.take_take]
  have hcursor : (msg.take 6).length + ((msg.drop 6).take (cursor - 6)).length = cursor := by
    rw [hHl, hBl]
    omega
  have hRl : (msg.drop cursor).length = msg.length - cursor := List.length_drop _ _
  rw [← hEl] at hmsg hsize
  by_cases hgrow : msg.length < cursor + E.length
  · rw [if_pos hgrow] at hmsg hsize
    refine ⟨(msg.drop cursor ++ List.replicate (cursor + E.length - msg.length) 0).drop
      E.length, ?_, ?_⟩
    · have hw := writeAt_count_entry (msg.take 6) ((msg.drop 6).take (cursor - 6))
        (msg.drop cursor ++ List.replicate (cursor + E.length - msg.length) 0) E c hHl
        (by rw [List.length_append, List.length_replicate, hRl]; omega)
      rw [hcursor, hH5, ← List.append_assoc, ← hsplit, ← realloc_of_le _ _ (by omega)] at hw
      rw [hmsg, hw]
    · rw [hsize, List.length_drop, List.length_append, List.length_replicate, hRl]
      omega
  · rw [if_neg hgrow] at hmsg hsize
    refine ⟨(msg.drop cursor).drop E.length, ?_, ?_⟩
    · have hw := writeAt_count_entry (msg.take 6) ((msg.drop 6).take (cursor - 6))
        (msg.drop cursor) E c hHl (by rw [hRl]; omega)
      rw [hcursor, hH5, ← hsplit] at hw
      rw [hmsg, hw]
    · rw [hsize, List.length_drop, hRl]
      omega
/-- An element of the middle one of three lists. -/
theorem getElem_middle (a b c : List Nat) (i : Nat) (h1 : a.length ≤ i)
    (h2 : i < a.length + b.length) :
    (a ++ b ++ c)[i]? = b[i - a.length]? := by
  rw [List.append_assoc, List.getElem?_append_right h1,
    List.getElem?_append_left (by omega)]

/-- Entries take at least `DB_MSG_PAYLOAD_SIZE` bytes each. -/
theorem encodeEntries_length_pos (bigEndian : Bool) (method : Nat)
    (es : List (DB_REQUEST_TYPE_T × List Nat)) (hne : es ≠ []) :
    0 < (encodeEntries bigEndian method es).length := by
  cases es with
  | nil => exact absurd rfl hne
  | cons e es =>
    obtain ⟨r, d⟩ := e
    simp only [encodeEntries, List.length_append, setMsgPayload_length]
    omega

/-- The occupied region of a payload list written after `pre` ends where the
list ends. -/
theorem occupiedEnd_encodeEntries (bigEndian : Bool) (method : Nat)
    (es : List (DB_REQUEST_TYPE_T × List Nat)) (pre post : List Nat)
    (hes : ∀ e ∈ es, entryFits e) :
    occupiedEnd bigEndian (pre ++ encodeEntries bigEndian method es ++ post) es.length
        pre.length
      = some (pre.length + (encodeEntries bigEndian method es).length) := by
  induction es generalizing pre with
  | nil => simp [encodeEntries, occupiedEnd]
  | cons e es ih =>
    obtain ⟨r, d⟩ := e
    have he : entryFits (r, d) := hes _ (List.mem_cons_self _ _)
    have hes1 : ∀ x ∈ es, entryFits x := fun x hx => hes x (List.mem_cons_of_mem _ hx)
    have hmsg : pre ++ encodeEntries bigEndian method ((r, d) :: es) ++ post
        = pre ++ (dbapi_setMsgPayload bigEndian method r.t_idx r.f_idx r.e_idx d).1
            ++ (encodeEntries bigEndian method es ++ post) := by
      simp [encodeEntries, List.append_assoc]
    have hmsg2 : pre ++ encodeEntries bigEndian method ((r, d) :: es) ++ post
        = (pre ++ (dbapi_setMsgPayload bigEndian method r.t_idx r.f_idx r.e_idx d).1)
            ++ encodeEntries bigEndian method es ++ post := by
      simp [encodeEntries, List.append_assoc]
    obtain ⟨hparse, _⟩ := parseMsg_entry bigEndian method 1 pre.length false pre
      (encodeEntries bigEndian method es ++ post) (r, d) he (by decide) (by simp)
    have hlen : (pre ++ (dbapi_setMsgPayload bigEndian method r.t_idx r.f_idx r.e_idx d).1).length
        = pre.length + 6 + d.length := by
      rw [List.length_append, setMsgPayload_length]
      omega
    have ih1 := ih (pre ++ (dbapi_setMsgPayload bigEndian method r.t_idx r.f_idx r.e_idx d).1)
      hes1
    rw [hlen] at ih1
    simp only [List.length_cons, occupiedEnd]
    rw [hmsg, hparse]
    simp only
    rw [← hmsg, hmsg2, ih1]
    simp only [encodeEntries, List.length_append, setMsgPayload_length]
    congr 1
    omega

/-- Appending succeeds on a message that holds a header, fewer than 127 requests
that the header counts, and any slack, at the cursor right after the requests,
when the grown message still fits a `UI16_T` size. -/
theorem appendMsgPayload_succeeds (bigEndian : Bool) (hdr slack : List Nat)
    (prev : List (DB_REQUEST_TYPE_T × List Nat)) (r : DB_REQUEST_TYPE_T) (d : List Nat)
    (hhdr : hdr.length = DB_MSG_HEADER_SIZE TARGET_POINTER_WIDTH)
    (hcount : prev ≠ [] → effectiveCount (hdr.getD 5 0) = prev.length)
    (hprev : ∀ e ∈ prev, entryFits e)
    (hmax : prev.length < 127)
    (hsize : hdr.length + (encodeEntries bigEndian (hdr.getD 4 0) prev).length
      + DB_MSG_PAYLOAD_SIZE TARGET_POINTER_WIDTH + d.length ≤ 65535) :
    ∃ out, dbapi_appendMsgPayload bigEndian r d
        (hdr ++ encodeEntries bigEndian (hdr.getD 4 0) prev ++ slack)
        (hdr ++ encodeEntries bigEndian (hdr.getD 4 0) prev ++ slack).length
        (hdr.length + (encodeEntries bigEndian (hdr.getD 4 0) prev).length)
      = .ok out := by
  have h6 : hdr.length = 6 := hhdr
  have hps : DB_MSG_PAYLOAD_SIZE TARGET_POINTER_WIDTH = 6 := rfl
  have hhs : DB_MSG_HEADER_SIZE TARGET_POINTER_WIDTH = 6 := rfl
  have hfl : DB_COUNT_REUSE_FLAG = 128 := rfl
  rw [hps] at hsize
  have hocc := occupiedEnd_encodeEntries bigEndian (hdr.getD 4 0) prev hdr slack hprev
  generalize hP : encodeEntries bigEndian (hdr.getD 4 0) prev = P at *
  have hm5 : (hdr ++ P ++ slack).getD 5 0 = hdr.getD 5 0 := by
    rw [List.append_assoc, List.getD_append _ _ _ _ (by omega)]
  have hn : requestsBefore (hdr ++ P ++ slack) (hdr.length + P.length) = prev.length := by
    unfold requestsBefore
    by_cases hp : prev = []
    · subst hp
      simp [← hP, encodeEntries, h6, hhs]
    · have hpos := encodeEntries_length_pos bigEndian (hdr.getD 4 0) prev hp
      rw [hP] at hpos
      rw [if_neg (by omega), hm5, hcount hp]
  unfold dbapi_appendMsgPayload
  simp only [hn, hhs, hfl, setMsgPayload_length]
  rw [← h6, hocc]
  rw [if_neg (by simp), if_neg (by simp only [List.length_append]; omega), if_neg (by simp),
    if_neg (by omega), if_neg (by omega)]
  exact ⟨_, rfl⟩

/-- C16: whenever `dbapi_appendMsgPayload` returns `MW_E_OK`, the size given was
the size of the message and the cursor was the end of the occupied region (the
requests set before end there; they are none when the cursor is the start of
the payload, where the first request goes, and as many as the header counts
otherwise), and in the returned message: the effective
count is one more than the number of requests set before, the reuse flag being
as it was; `cq_name` and `method` and every payload byte before the cursor, so
every request appended before, are unchanged, and the requests set before still
end at the cursor; the new entry is stored at the cursor, where it reads back
as the address, the data size and the data appended; the returned cursor is the
incoming one advanced by `DB_MSG_PAYLOAD_SIZE` and the data size, which is
where the requests now counted end; and the returned message size is the size
of the returned message and covers the returned cursor. -/
theorem append_request (bigEndian : Bool) (r : DB_REQUEST_TYPE_T) (d msg : List Nat)
    (msg_size cursor : Nat) (out : AppendOut)
    (hok : dbapi_appendMsgPayload bigEndian r d msg msg_size cursor = .ok out) :
    msg_size = msg.length
    ∧ occupiedEnd bigEndian msg (requestsBefore msg cursor)
        (DB_MSG_HEADER_SIZE TARGET_POINTER_WIDTH) = some cursor
    ∧ effectiveCount (out.msg.getD 5 0) = requestsBefore msg cursor + 1
    ∧ out.msg.getD 5 0 &&& DB_COUNT_REUSE_FLAG = msg.getD 5 0 &&& DB_COUNT_REUSE_FLAG
    ∧ out.msg.take 5 = msg.take 5
    ∧ (out.msg.drop (DB_MSG_HEADER_SIZE TARGET_POINTER_WIDTH)).take
          (cursor - DB_MSG_HEADER_SIZE TARGET_POINTER_WIDTH)
        = (msg.drop (DB_MSG_HEADER_SIZE TARGET_POINTER_WIDTH)).take
            (cursor - DB_MSG_HEADER_SIZE TARGET_POINTER_WIDTH)
    ∧ occupiedEnd bigEndian out.msg (requestsBefore msg cursor)
        (DB_MSG_HEADER_SIZE TARGET_POINTER_WIDTH) = some cursor
    ∧ dbapi_parseMsg bigEndian out.msg 1 false cursor
        = .ok ⟨r.stored, d.length, cursor + DB_MSG_PAYLOAD_SIZE TARGET_POINTER_WIDTH,
            cursor + DB_MSG_PAYLOAD_SIZE TARGET_POINTER_WIDTH + d.length⟩
    ∧ (out.msg.drop (cursor + DB_MSG_PAYLOAD_SIZE TARGET_POINTER_WIDTH)).take d.length = d
    ∧ out.shifted_payload = cursor + DB_MSG_PAYLOAD_SIZE TARGET_POINTER_WIDTH + d.length
    ∧ occupiedEnd bigEndian out.msg (requestsBefore msg cursor + 1)
        (DB_MSG_HEADER_SIZE TARGET_POINTER_WIDTH) = some out.shifted_payload
    ∧ out.shifted_payload ≤ out.msg_size
    ∧ out.msg_size = out.msg.length := by
  have hps : DB_MSG_PAYLOAD_SIZE TARGET_POINTER_WIDTH = 6 := rfl
  have hhs : DB_MSG_HEADER_SIZE TARGET_POINTER_WIDTH = 6 := rfl
  obtain ⟨hms, h6, hocc, hn, hsz, _, _, hcur⟩ := appendMsgPayload_ok _ _ _ _ _ _ _ hok
  obtain ⟨hc6, hcl, tail, hmsg, hsize⟩ := appendMsgPayload_msg _ _ _ _ _ _ _ hok
  obtain ⟨hcnt, hflag⟩ := count_with_flag (msg.getD 5 0) (requestsBefore msg cursor + 1) hn
  rw [hps, hhs]
  generalize (msg.getD 5 0 &&& DB_COUNT_REUSE_FLAG) ||| (requestsBefore msg cursor + 1) = c
    at hmsg hcnt hflag
  generalize hB : (msg.drop 6).take (cursor - 6) = B at hmsg
  have hBl : B.length = cursor - 6 := by
    rw [← hB, List.length_take, List.length_drop]
    omega
  have hEl := setMsgPayload_length bigEndian (msg.getD 4 0) r.t_idx r.f_idx r.e_idx d
  have hh : (msg.take 5 ++ [c]).length = 6 := by
    simp only [List.length_append, List.length_take, List.length_singleton]
    omega
  have hpre : (msg.take 5 ++ [c] ++ B).length = cursor := by
    rw [List.length_append, hh, hBl]
    omega
  have hfit : entryFits (r.stored, d) := by
    refine ⟨Nat.mod_lt _ (by decide), Nat.mod_lt _ (by decide), Nat.mod_lt _ (by decide), ?_⟩
    show d.length < 65536
    omega
  obtain ⟨hparse, hbytes⟩ := parseMsg_entry bigEndian (msg.getD 4 0) 1 cursor false
    (msg.take 5 ++ [c] ++ B) tail (r.stored, d) hfit (by decide) (by simpa using hpre.symm)
  simp only [setMsgPayload_stored] at hparse hbytes
  rw [← hmsg, hpre] at hparse hbytes
  have hc5 : out.msg.getD 5 0 = c := by
    rw [hmsg]
    simp only [List.append_assoc]
    rw [List.getD_append_right _ _ _ _ (by simp)]
    have : (msg.take 5).length = 5 := by
      rw [List.length_take]
      omega
    simp [this]
  have hagree : ∀ i, 6 ≤ i → i < cursor → out.msg[i]? = msg[i]? := by
    intro i hi1 hi2
    have e1 : out.msg[i]? = B[i - 6]? := by
      rw [hmsg, List.append_assoc (msg.take 5 ++ [c] ++ B), ← hh]
      exact getElem_middle _ _ _ _ (by omega) (by omega)
    have e2 : msg[i]? = B[i - 6]? := by
      rw [← hB, List.getElem?_take_of_lt (by omega), List.getElem?_drop]
      congr 1
      omega
    rw [e1, e2]
  have hlen : out.msg.length = cursor + (6 + d.length) + tail.length := by
    rw [hmsg, List.length_append, List.length_append, hpre, hEl]
  have hocc2 : occupiedEnd bigEndian out.msg (requestsBefore msg cursor) 6 = some cursor :=
    occupiedEnd_congr bigEndian msg out.msg _ 6 cursor hocc hagree (by omega)
  refine ⟨hms, hocc, ?_, ?_, ?_, ?_, hocc2, hparse, hbytes, ?_, ?_, ?_, ?_⟩
  · rw [hc5]
    exact hcnt
  · rw [hc5]
    exact hflag
  · rw [hmsg]
    simp only [List.append_assoc]
    rw [List.take_append_of_le_length (by rw [List.length_take]; omega), List.take_take]
    simp
  · rw [hmsg, List.append_assoc, List.append_assoc, List.drop_left' hh, ← hBl,
      List.take_left]
  · rw [hcur]
    omega
  · rw [occupiedEnd_succ, hocc2, hcur]
    simp only [Option.some_bind, occupiedEnd, hparse]
    congr 1
    omega
  · rw [hcur, hsize]
    omega
  · rw [hsize, hlen]

/-- Witness for C16: a second request, with one byte of data, is appended to a
message that holds one request and has no room left, so the message is
reallocated; its count byte has the reuse flag set, and keeps it. -/
theorem append_request_witness :
    dbapi_appendMsgPayload false ⟨17, 1, 4⟩ [9]
        [100, 98, 113, 0, 10, 129, 17, 1, 3, 0, 0, 0] 12 12
      = .ok ⟨[100, 98, 113, 0, 10, 130, 17, 1, 3, 0, 0, 0, 17, 1, 4, 0, 1, 0, 9], 19, 19⟩
    ∧ effectiveCount 130 = 2
    ∧ dbapi_parseMsg false
        [100, 98, 113, 0, 10, 130, 17, 1, 3, 0, 0, 0, 17, 1, 4, 0, 1, 0, 9] 1 false 12
      = .ok ⟨⟨17, 1, 4⟩, 1, 18, 19⟩ :=
  ⟨rfl,
   (append_request false ⟨17, 1, 4⟩ [9] [100, 98, 113, 0, 10, 129, 17, 1, 3, 0, 0, 0] 12 12
      ⟨[100, 98, 113, 0, 10, 130, 17, 1, 3, 0, 0, 0, 17, 1, 4, 0, 1, 0, 9], 19, 19⟩
      rfl).2.2.1.trans (by decide),
   (append_request false ⟨17, 1, 4⟩ [9] [100, 98, 113, 0, 10, 129, 17, 1, 3, 0, 0, 0] 12 12
      ⟨[100, 98, 113, 0, 10, 130, 17, 1, 3, 0, 0, 0, 17, 1, 4, 0, 1, 0, 9], 19, 19⟩
      rfl).2.2.2.2.2.2.2.1⟩


/-- C22: on a target whose data pointers are `p` bytes wide the packed sizes are
`sizeof(DB_MSG_T) = 6 + p` and `sizeof(DB_PAYLOAD_T) = 6 + p`, so
`DB_MSG_HEADER_SIZE` and `DB_MSG_PAYLOAD_SIZE` both evaluate to `2 + p`; they
equal the 6-byte wire header sizes exactly when `p = DB_MSG_PTR_SIZE = 4`, and
for `p = 8` both are 10. -/
theorem header_sizes_by_pointer_width (p : Nat) :
    sizeofPacked (DB_MSG_T.fields p) = 6 + p
    ∧ sizeofPacked (DB_PAYLOAD_T.fields p) = 6 + p
    ∧ DB_MSG_HEADER_SIZE p = 2 + p
    ∧ DB_MSG_PAYLOAD_SIZE p = 2 + p
    ∧ (DB_MSG_HEADER_SIZE p = 6 ↔ p = DB_MSG_PTR_SIZE)
    ∧ (DB_MSG_PAYLOAD_SIZE p = 6 ↔ p = DB_MSG_PTR_SIZE)
    ∧ DB_MSG_PTR_SIZE = 4
    ∧ DB_MSG_HEADER_SIZE 8 = 10 ∧ DB_MSG_PAYLOAD_SIZE 8 = 10 := by
  have hm : sizeofPacked (DB_MSG_T.fields p) = 6 + p := by
    simp [sizeofPacked, DB_MSG_T.fields, DB_MSG_T.typeMembers, sizeofUnion, CType.sizeof,
      DB_Q_NAME_SIZE]
    omega
  have hp : sizeofPacked (DB_PAYLOAD_T.fields p) = 6 + p := by
    simp [sizeofPacked, DB_PAYLOAD_T.fields, DB_REQUEST_TYPE_T.fields, CType.sizeof]
    omega
  have h4 : DB_MSG_PTR_SIZE = 4 := rfl
  refine ⟨hm, hp, ?_, ?_, ?_, ?_, h4, by decide, by decide⟩
  · unfold DB_MSG_HEADER_SIZE
    rw [hm, h4]
    omega
  · unfold DB_MSG_PAYLOAD_SIZE
    rw [hp, h4]
    omega
  · unfold DB_MSG_HEADER_SIZE
    rw [hm, h4]
    omega
  · unfold DB_MSG_PAYLOAD_SIZE
    rw [hp, h4]
    omega

/-- The names of the values of an `enum` are the names of its enumerators. -/
theorem enumValuesFrom_names (es : List Enumerator) (n : Nat) :
    (enumValuesFrom n es).map Prod.fst = es.map Enumerator.name := by
  induction es generalizing n with
  | nil => rfl
  | cons e es ih =>
    cases hinit : e.init with
    | none => simp only [enumValuesFrom, hinit, List.map_cons, ih]
    | some v => simp only [enumValuesFrom, hinit, List.map_cons, ih]

/-- Enumerators with consecutive values, written as names paired with values. -/
theorem enumValuesFrom_zip (es : List Enumerator) (n : Nat)
    (h : (enumValuesFrom n es).map Prod.snd = List.range' n es.length) :
    enumValuesFrom n es = (es.map Enumerator.name).zip (List.range' n es.length) :=
  List.zip_of_prod (enumValuesFrom_names es n) h

/-- The header's `TABLES_T` is the persistent tables, the volatile tables and
`TABLES_LAST`. -/
theorem TABLES_T_split (cfg : BuildConfig) :
    TABLES_T cfg = persistentTables cfg ++ volatileTables cfg ++ [.plain "TABLES_LAST"] := by
  simp only [TABLES_T, persistentTables, volatileTables, List.append_assoc]

/-- In every build the persistent tables are numbered consecutively from 0. -/
theorem persistentTables_consecutive (cfg : BuildConfig) :
    (enumValuesFrom 0 (persistentTables cfg)).map Prod.snd
      = List.range' 0 (persistentTables cfg).length := by
  unfold persistentTables
  refine consecutive_append _ _ _ ?_ (consecutive_ifdef _ _ _ (by decide))
  refine consecutive_append _ _ _ ?_ (consecutive_ifdef _ _ _ (by decide))
  refine consecutive_append _ _ _ ?_ (consecutive_ifdef _ _ _ (by decide))
  refine consecutive_append _ _ _ ?_ (consecutive_ifdef _ _ _ (by decide))
  refine consecutive_append _ _ _ ?_ (consecutive_ifdef _ _ _ (by decide))
  refine consecutive_append _ _ _ ?_ (consecutive_ifdef _ _ _ (by decide))
  refine consecutive_append _ _ _ ?_ (enumValuesFrom_plain _ _ (by decide))
  refine consecutive_append _ _ _ ?_ (consecutive_ifdef _ _ _ (by decide))
  rfl

/-- In every build the volatile tables continue whatever count they start at. -/
theorem volatileTables_consecutive (cfg : BuildConfig) (n : Nat) :
    (enumValuesFrom n (volatileTables cfg)).map Prod.snd
      = List.range' n (volatileTables cfg).length := by
  unfold volatileTables
  refine consecutive_append _ _ _ ?_ (consecutive_ifdef _ _ _ (by decide))
  refine consecutive_append _ _ _ ?_ (consecutive_ifdef _ _ _ (by decide))
  refine consecutive_append _ _ _ ?_ (consecutive_ifdef _ _ _ (by decide))
  refine consecutive_append _ _ _ ?_ (enumValuesFrom_plain _ _ (by decide))
  refine consecutive_append _ _ _ ?_ (consecutive_ifdef _ _ _ (by decide))
  refine consecutive_append _ _ _ ?_ (consecutive_ifdef _ _ _ (by decide))
  refine consecutive_append _ _ _ ?_ (consecutive_ifdef _ _ _ (by decide))
  exact enumValuesFrom_plain _ _ (by decide)

/-- The number of persistent tables in a build. -/
theorem persistentTables_length (cfg : BuildConfig) :
    (persistentTables cfg).length = 16 + cfg.AIR_SUPPORT_IGMP_SNP_QUERIER.toNat
      + 2 * cfg.AIR_SUPPORT_DHCP_SNOOP.toNat + cfg.AIR_SUPPORT_SNMP.toNat
      + 2 * cfg.AIR_SUPPORT_RSTP.toNat + cfg.AIR_SUPPORT_MQTTD.toNat
      + 2 * cfg.AIR_SUPPORT_LLDPD.toNat + 2 * cfg.AIR_SUPPORT_POE.toNat := by
  simp only [persistentTables, List.length_append, length_ifdef, List.length_cons,
    List.length_nil]
  omega

/-- The number of volatile tables in a build. -/
theorem volatileTables_length (cfg : BuildConfig) :
    (volatileTables cfg).length = 10 + cfg.AIR_SUPPORT_ICMP_CLIENT.toNat
      + cfg.AIR_SUPPORT_SFP.toNat + cfg.AIR_SUPPORT_VOICE_VLAN.toNat
      + cfg.AIR_SUPPORT_RSTP.toNat + cfg.AIR_SUPPORT_LLDPD.toNat
      + 2 * cfg.AIR_SUPPORT_POE.toNat := by
  simp only [volatileTables, List.length_append, length_ifdef, List.length_cons,
    List.length_nil]
  omega

/-- C21: in every build configuration the tables kept in the configuration file
are exactly those with index `0 .. SYS_OPER_INFO - 1` and the tables not kept
are exactly those with index `SYS_OPER_INFO .. TABLES_LAST - 1` (`k` is the value
of `SYS_OPER_INFO`, `last` that of `TABLES_LAST`), so every persistent index is
smaller than every volatile index; with no feature macro defined
`SYS_OPER_INFO = 16` and `TABLES_LAST = 26`, that is 16 persistent and 10
volatile tables. -/
theorem persistent_tables_prefix (cfg : BuildConfig) :
    ∃ k last,
      TABLES_T cfg = persistentTables cfg ++ volatileTables cfg ++ [.plain "TABLES_LAST"]
      ∧ enumValues (TABLES_T cfg)
          = ((persistentTables cfg).map Enumerator.name).zip (List.range' 0 k)
            ++ ((volatileTables cfg).map Enumerator.name).zip (List.range' k (last - k))
            ++ [("TABLES_LAST", last)]
      ∧ (persistentTables cfg).length = k
      ∧ (volatileTables cfg).length = last - k
      ∧ (((volatileTables cfg).map Enumerator.name).zip (List.range' k (last - k))).head?
          = some ("SYS_OPER_INFO", k)
      ∧ enumLast (TABLES_T cfg) = some last
      ∧ 16 ≤ k ∧ k + 10 ≤ last
      ∧ (∀ i ∈ List.range' 0 k, ∀ j ∈ List.range' k (last - k), i < j)
      ∧ (persistentTables BuildConfig.none).length = 16
      ∧ (volatileTables BuildConfig.none).length = 10
      ∧ enumLast (TABLES_T BuildConfig.none) = some 26 := by
  have hP := persistentTables_consecutive cfg
  have hPl := persistentTables_length cfg
  have hVl := volatileTables_length cfg
  have hV := volatileTables_consecutive cfg (0 + (persistentTables cfg).length)
  have hPV := consecutive_append _ _ 0 hP hV
  have hall : enumValues (TABLES_T cfg)
      = enumValuesFrom 0 (persistentTables cfg)
        ++ enumValuesFrom (0 + (persistentTables cfg).length) (volatileTables cfg)
        ++ [("TABLES_LAST", (persistentTables cfg).length + (volatileTables cfg).length)] := by
    unfold enumValues
    rw [TABLES_T_split, enumValuesFrom_append _ _ 0 hPV, enumValuesFrom_append _ _ 0 hP]
    simp [enumValuesFrom, Enumerator.plain]
  rw [enumValuesFrom_zip _ _ hP, enumValuesFrom_zip _ _ hV] at hall
  simp only [Nat.zero_add] at hall
  obtain ⟨t, ht⟩ : ∃ t, volatileTables cfg = (.plain "SYS_OPER_INFO") :: t := by
    unfold volatileTables
    simp only [List.cons_append]
    exact ⟨_, rfl⟩
  refine ⟨(persistentTables cfg).length,
    (persistentTables cfg).length + (volatileTables cfg).length,
    TABLES_T_split cfg, ?_, rfl, by omega, ?_, ?_, by omega, by omega, ?_, by decide,
    by decide, by decide⟩
  · rw [hall, Nat.add_sub_cancel_left]
  · rw [Nat.add_sub_cancel_left, ht]
    simp [Enumerator.plain, List.range'_succ]
  · unfold enumLast
    rw [hall, List.getLast?_concat]
    rfl
  · intro i hi j hj
    have h1 := (List.mem_range'_1.mp hi).2
    have h2 := (List.mem_range'_1.mp hj).1
    omega

/-- Each table schema the header can declare has as many named fields as members,
numbered from 1 in declaration order. -/
theorem schema_fields_match_members (T : TableSchema)
    (hT : T ∈ [(⟨"SYS_OPER_INFO", SYS_OPER_INFO_T, DB_SYS_OPER_INFO_T⟩ : TableSchema),
      ⟨"PORT_OPER_INFO", PORT_OPER_INFO_T, DB_PORT_OPER_INFO_T⟩,
      ⟨"PORT_DIAG", PORT_CABLE_DIAG_T, DB_PORT_DIAG_T⟩,
      ⟨"LOGON_INFO", LOGON_INFO_T, DB_LOGON_INFO_T⟩,
      ⟨"L2_MC_ENTRY", L2_MC_ENTRY_T BuildConfig.none, DB_L2_MC_ENTRY_T BuildConfig.none⟩,
      ⟨"L2_MC_ENTRY", L2_MC_ENTRY_T BuildConfig.all, DB_L2_MC_ENTRY_T BuildConfig.all⟩,
      ⟨"SYSTEM", SYSTEM_T, DB_SYSTEM_T⟩,
      ⟨"PORT_OPER_SETTING", PORT_OPER_SETTING_T, DB_PORT_OPER_SETTING_T⟩,
      ⟨"ICMP_CLIENT_INFO", ICMP_CLIENT_INFO_T, DB_ICMP_CLIENT_INFO_T⟩,
      ⟨"SFP_MODULE_INFO", SFP_MODULE_INFO_T, DB_SFP_MODULE_INFO_T⟩,
      ⟨"VOICE_OPER_INFO", VOICE_OPER_INFO_T, DB_VOICE_OPER_INFO_T⟩,
      ⟨"MIB_CNT", MIB_CNT_T BuildConfig.none, DB_MIB_CNT_T BuildConfig.none⟩,
      ⟨"MIB_CNT", MIB_CNT_T BuildConfig.all, DB_MIB_CNT_T BuildConfig.all⟩,
      ⟨"DYNAMIC_MAC_ADDRESS_ENTRY_CFG", DYNAMIC_MAC_ADDRESS_ENTRY_CFG_T,
        DB_DYNAMIC_MAC_ADDRESS_ENTRY_CFG_T⟩,
      ⟨"DYNAMIC_MAC_ADDRESS_ENTRY", DYNAMIC_MAC_ADDRESS_ENTRY_T,
        DB_DYNAMIC_MAC_ADDRESS_ENTRY_T⟩,
      ⟨"RSTP_PORT_OPER_INFO", RSTP_PORT_OPER_INFO_T, DB_RSTP_PORT_OPER_T⟩,
      ⟨"LLDP_CLIENT_INFO", LLDP_CLIENT_INFO_T, DB_LLDP_CLIENT_INFO_T⟩,
      ⟨"POE_STATUS", POE_STATUS_T, DB_POE_STATUS_T⟩,
      ⟨"POE_PORT_STATUS", POE_PORT_STATUS_T, DB_POE_PORT_STATUS_T⟩]) :
    enumLast T.fields = some (T.members.length + 1)
      ∧ enumNamedValues T.fields = List.range' 1 T.members.length
      ∧ (enumNamedValues T.fields).map (memberOfField T) = T.members.map some
      ∧ (fieldPairs T).length = T.members.length := by
  simp only [List.mem_cons, List.mem_singleton, List.not_mem_nil, or_false] at hT
  rcases hT with h | h | h | h | h | h | h | h | h | h | h | h | h | h | h | h | h | h | h
  all_goals
    subst h
    exact ⟨rfl, rfl, rfl, rfl⟩

/-- The schema of `L2_MC_ENTRY` in a build is one of its two forms. -/
theorem L2_MC_ENTRY_schema_cases (cfg : BuildConfig) :
    (⟨"L2_MC_ENTRY", L2_MC_ENTRY_T cfg, DB_L2_MC_ENTRY_T cfg⟩ : TableSchema)
        = ⟨"L2_MC_ENTRY", L2_MC_ENTRY_T BuildConfig.none, DB_L2_MC_ENTRY_T BuildConfig.none⟩
      ∨ (⟨"L2_MC_ENTRY", L2_MC_ENTRY_T cfg, DB_L2_MC_ENTRY_T cfg⟩ : TableSchema)
        = ⟨"L2_MC_ENTRY", L2_MC_ENTRY_T BuildConfig.all, DB_L2_MC_ENTRY_T BuildConfig.all⟩ := by
  unfold L2_MC_ENTRY_T DB_L2_MC_ENTRY_T
  cases cfg.AIR_SUPPORT_IGMP_SNP_SEARCH_MAC_TABLE
  · exact Or.inl rfl
  · exact Or.inr rfl

/-- The schema of `MIB_CNT` in a build is one of its two forms. -/
theorem MIB_CNT_schema_cases (cfg : BuildConfig) :
    (⟨"MIB_CNT", MIB_CNT_T cfg, DB_MIB_CNT_T cfg⟩ : TableSchema)
        = ⟨"MIB_CNT", MIB_CNT_T BuildConfig.none, DB_MIB_CNT_T BuildConfig.none⟩
      ∨ (⟨"MIB_CNT", MIB_CNT_T cfg, DB_MIB_CNT_T cfg⟩ : TableSchema)
        = ⟨"MIB_CNT", MIB_CNT_T BuildConfig.all, DB_MIB_CNT_T BuildConfig.all⟩ := by
  unfold MIB_CNT_T DB_MIB_CNT_T
  cases cfg.AIR_SUPPORT_SNMP
  · exact Or.inl rfl
  · exact Or.inr rfl

/-- C23: in every build configuration, for every volatile table whose field
enumeration and structure are both declared, the number of fields `LAST - 1`
equals the number of members of the structure, and the field with index `k` is
the k-th member in declaration order; in particular `MIB_CNT` has 14 fields and
members with `AIR_SUPPORT_SNMP` and 6 without, `L2_MC_ENTRY` has 4 either way,
and the member counts with every macro defined are those listed. -/
theorem fields_match_members (cfg : BuildConfig) :
    (∀ T ∈ tableSchemas cfg,
      enumLast T.fields = some (T.members.length + 1)
        ∧ enumNamedValues T.fields = List.range' 1 T.members.length
        ∧ (enumNamedValues T.fields).map (memberOfField T) = T.members.map some
        ∧ (fieldPairs T).length = T.members.length)
    ∧ (tableSchemas BuildConfig.all).map (fun T => (T.table, T.members.length))
        = [("SYS_OPER_INFO", 7), ("PORT_OPER_INFO", 8), ("PORT_DIAG", 5), ("LOGON_INFO", 1),
           ("L2_MC_ENTRY", 4), ("SYSTEM", 3), ("PORT_OPER_SETTING", 1),
           ("ICMP_CLIENT_INFO", 10), ("SFP_MODULE_INFO", 8), ("VOICE_OPER_INFO", 1),
           ("MIB_CNT", 14), ("DYNAMIC_MAC_ADDRESS_ENTRY_CFG", 2),
           ("DYNAMIC_MAC_ADDRESS_ENTRY", 4), ("RSTP_PORT_OPER_INFO", 3),
           ("LLDP_CLIENT_INFO", 7), ("POE_STATUS", 3), ("POE_PORT_STATUS", 6)]
    ∧ (DB_MIB_CNT_T cfg).length = (if cfg.AIR_SUPPORT_SNMP then 14 else 6)
    ∧ (MIB_CNT_T cfg).length = (if cfg.AIR_SUPPORT_SNMP then 14 else 6) + 1
    ∧ (DB_L2_MC_ENTRY_T cfg).length = 4
    ∧ (L2_MC_ENTRY_T cfg).length = 4 + 1
    ∧ fieldPairs ⟨"MIB_CNT", MIB_CNT_T BuildConfig.all, DB_MIB_CNT_T BuildConfig.all⟩
        = [("MIB_CNT_RX_PACKETS", 1, "rx_packets"),
           ("MIB_CNT_RX_UNICAST_PACKETS", 2, "rx_unicast_pkts"),
           ("MIB_CNT_RX_MULTICAST_PACKETS", 3, "rx_multicast_pkts"),
           ("MIB_CNT_RX_BROADCAST_PACKETS", 4, "rx_broadcast_pkts"),
           ("MIB_CNT_RX_DISCARDS_PACKETS", 5, "rx_discards_pkts"),
           ("MIB_CNT_RX_OCTETS", 6, "rx_octets"), ("MIB_CNT_RX_ERRORS", 7, "rx_errors"),
           ("MIB_CNT_TX_PACKETS", 8, "tx_packets"),
           ("MIB_CNT_TX_UNICAST_PACKETS", 9, "tx_unicast_pkts"),
           ("MIB_CNT_TX_MULTICAST_PACKETS", 10, "tx_multicast_pkts"),
           ("MIB_CNT_TX_BROADCAST_PACKETS", 11, "tx_broadcast_pkts"),
           ("MIB_CNT_TX_DISCARDS_PACKETS", 12, "tx_discards_pkts"),
           ("MIB_CNT_TX_OCTETS", 13, "tx_octets"), ("MIB_CNT_TX_ERRORS", 14, "tx_errors")]
    ∧ fieldPairs ⟨"MIB_CNT", MIB_CNT_T BuildConfig.none, DB_MIB_CNT_T BuildConfig.none⟩
        = [("MIB_CNT_RX_PACKETS", 1, "rx_packets"), ("MIB_CNT_RX_OCTETS", 2, "rx_octets"),
           ("MIB_CNT_RX_ERRORS", 3, "rx_errors"), ("MIB_CNT_TX_PACKETS", 4, "tx_packets"),
           ("MIB_CNT_TX_OCTETS", 5, "tx_octets"), ("MIB_CNT_TX_ERRORS", 6, "tx_errors")]
    ∧ fieldPairs ⟨"L2_MC_ENTRY", L2_MC_ENTRY_T BuildConfig.all, DB_L2_MC_ENTRY_T BuildConfig.all⟩
        = [("L2_MC_MAC_ADDR", 1, "mac_addr"), ("L2_MC_VID", 2, "vid"),
           ("L2_MC_PORTBITMAP", 3, "portbitmap"), ("L2_MC_UPDATE_FLAG", 4, "update_flag")]
    ∧ fieldPairs ⟨"L2_MC_ENTRY", L2_MC_ENTRY_T BuildConfig.none,
          DB_L2_MC_ENTRY_T BuildConfig.none⟩
        = [("L2_MC_IP_ADDR", 1, "ip_addr"), ("L2_MC_VID", 2, "vid"),
           ("L2_MC_PORTBITMAP", 3, "portbitmap"), ("L2_MC_UPDATE_FLAG", 4, "update_flag")] := by
  refine ⟨?_, rfl, ?_, ?_, ?_, ?_, rfl, rfl, rfl, rfl⟩
  · intro T hT
    apply schema_fields_match_members
    simp only [tableSchemas, List.mem_append, List.mem_cons, List.mem_ite_nil_right,
      List.mem_singleton, List.not_mem_nil, or_false] at hT
    have hl2 := L2_MC_ENTRY_schema_cases cfg
    have hmib := MIB_CNT_schema_cases cfg
    simp only [List.mem_cons, List.mem_singleton, List.not_mem_nil, or_false]
    rcases hT with (((((((h | h | h | h | h | h | h) | ⟨_, h⟩) | ⟨_, h⟩) | ⟨_, h⟩)
      | h | h | h) | ⟨_, h⟩) | ⟨_, h⟩) | ⟨_, h | h⟩
    all_goals
      rcases hl2 with h2 | h2 <;> rcases hmib with h3 | h3 <;>
        simp only [h, h2, h3, true_or, or_true]
  · unfold DB_MIB_CNT_T
    cases cfg.AIR_SUPPORT_SNMP <;> rfl
  · unfold MIB_CNT_T
    cases cfg.AIR_SUPPORT_SNMP <;> rfl
  · unfold DB_L2_MC_ENTRY_T
    cases cfg.AIR_SUPPORT_IGMP_SNP_SEARCH_MAC_TABLE <;> rfl
  · unfold L2_MC_ENTRY_T
    cases cfg.AIR_SUPPORT_IGMP_SNP_SEARCH_MAC_TABLE <;> rfl

/-- C24: `LLDP_CLIENT_INFO_SIZE` is the packed size of `DB_LLDP_CLIENT_INFO_T`: with
`MAX_LLDP_STR_SIZE = 64` and `MAX_NETWORK_POLICY_TLV_NUM = 2` that size is
`64 + 64 + 2 + 64 + 4 + 2 * 4 + 4 = 210`; in both endianness variants the
bit-field widths of `NETWORK_POLICY_T.info` add up to exactly 32 bits and those
of `EXTEN_POW_INFO_T.info` to exactly 16, so each union is as large as its
integer member. -/
theorem lldp_client_info_size (bigEndian : Bool) :
    MAX_LLDP_STR_SIZE = 64 ∧ MAX_NETWORK_POLICY_TLV_NUM = 2
    ∧ ((NETWORK_POLICY_T.info bigEndian).map Prod.snd).sum = 32
    ∧ ((EXTEN_POW_INFO_T.info bigEndian).map Prod.snd).sum = 16
    ∧ sizeof_NETWORK_POLICY_T bigEndian = sizeof_UI32_T
    ∧ sizeof_NETWORK_POLICY_T bigEndian = 4
    ∧ sizeof_EXTEN_POW_INFO_T bigEndian = CType.sizeof TARGET_POINTER_WIDTH .UI16_T
    ∧ sizeof_EXTEN_POW_INFO_T bigEndian = 2
    ∧ (DB_LLDP_CLIENT_INFO_T.sizes bigEndian).map Prod.snd = [64, 64, 2, 64, 4, 2 * 4, 4]
    ∧ (DB_LLDP_CLIENT_INFO_T.sizes bigEndian).map Prod.fst
        = DB_LLDP_CLIENT_INFO_T.map MemberDecl.name
    ∧ sizeof_DB_LLDP_CLIENT_INFO_T bigEndian = 64 + 64 + 2 + 64 + 4 + 2 * 4 + 4
    ∧ sizeof_DB_LLDP_CLIENT_INFO_T bigEndian = 210
    ∧ sizeof_DB_LLDP_CLIENT_INFO_T bigEndian = LLDP_CLIENT_INFO_SIZE := by
  cases bigEndian <;>
    exact ⟨rfl, rfl, rfl, rfl, rfl, rfl, rfl, rfl, rfl, rfl, rfl, rfl, rfl⟩


end DbApi
